import Mathlib

/-!
Shallow embedding of the European-Project-Call-Monitoring-Agent core
(eu-call-finder): the reflection module, the scoring engine, the
eligibility filter, the input validation and the LangGraph workflow
controller, together with theorems settling the specification claims.

Conventions of the embedding:
* Python dicts become Lean structures; a `.get(key, default)` on a key
  that may be absent becomes an `Option` field with the default applied
  at each use site (the sites use different defaults).
* Python floats become `ℚ` (the numeric literals of the source are all
  exactly representable); Python ints become `ℕ`/`ℤ` as appropriate.
* Python strings become `String`, but all string operations are
  re-implemented structurally (on `String.data`) so that concrete
  evaluations reduce inside the kernel.  The re-implementations agree
  with CPython on the ASCII texts the theorems evaluate; full-Unicode
  case mapping is not modelled.
* `datetime.now()` is modelled by an explicit parameter `now : ℤ`, the
  proleptic-Gregorian day ordinal of the current moment (timedelta's
  `.days` floors, so a run's clock is abstracted to whole days).
-/

namespace EUCF

/-! ## String utilities (kernel-computable stand-ins for Python str ops) -/

/-- ASCII lower-casing of one character, as Python `str.lower` acts on ASCII. -/
def lowerChar (c : Char) : Char :=
  if 'A' ≤ c ∧ c ≤ 'Z' then Char.ofNat (c.toNat + 32) else c

/-- ASCII upper-casing of one character, as Python `str.upper` acts on ASCII. -/
def upperChar (c : Char) : Char :=
  if 'a' ≤ c ∧ c ≤ 'z' then Char.ofNat (c.toNat - 32) else c

/-- Python `str.lower()` (ASCII fragment). -/
def pyLower (s : String) : String := ⟨s.data.map lowerChar⟩

/-- Python `str.upper()` (ASCII fragment). -/
def pyUpper (s : String) : String := ⟨s.data.map upperChar⟩

/-- Python's notion of whitespace for `str.strip()` / `str.split()`. -/
def isSpaceChar (c : Char) : Bool :=
  c = ' ' ∨ c = '\t' ∨ c = '\n' ∨ c = '\r' ∨ c = '\x0b' ∨ c = '\x0c'

/-- Python `str.strip()`. -/
def pyStrip (s : String) : String :=
  ⟨(s.data.dropWhile isSpaceChar).reverse.dropWhile isSpaceChar |>.reverse⟩

/-- Whether `pat` occurs at the start of `l`. -/
def charsStartWith (pat l : List Char) : Bool :=
  match pat, l with
  | [], _ => true
  | _ :: _, [] => false
  | a :: as, b :: bs => a == b && charsStartWith as bs

/-- Whether `pat` occurs somewhere inside `l`. -/
def charsContain (pat l : List Char) : Bool :=
  match l with
  | [] => charsStartWith pat []
  | _ :: t => charsStartWith pat l || charsContain pat t

/-- Python `pat in hay` on strings (substring containment). -/
def strContains (hay pat : String) : Bool := charsContain pat.data hay.data

/-- Python `" ".join parts` / `sep.join parts`. -/
def strJoin (sep : String) : List String → String
  | [] => ""
  | [s] => s
  | s :: rest => s ++ sep ++ strJoin sep rest

/-- Splits a character list at every separator character (used for
`str.split("-")`-style splitting; empty pieces are kept, as in Python). -/
def splitOnChar (sep : Char) : List Char → List (List Char)
  | [] => [[]]
  | c :: t =>
    let rest := splitOnChar sep t
    if c = sep then [] :: rest
    else
      match rest with
      | [] => [[c]]
      | h :: r => (c :: h) :: r

/-- Python `s.split(sep)` for a one-character separator. -/
def pySplitOn (s : String) (sep : Char) : List String :=
  (splitOnChar sep s.data).map String.mk

/-- Whitespace tokenisation: Python `s.split()` (no empty tokens). -/
def pyTokens (s : String) : List String :=
  ((splitOnChar ' ' (s.data.map fun c => if isSpaceChar c then ' ' else c)).filter
      fun l => l ≠ []).map String.mk

def isDigitChar (c : Char) : Bool := '0' ≤ c ∧ c ≤ '9'

/-- Numeric value of a digit list (most significant first). -/
def digitsToNat : List Char → ℕ
  | [] => 0
  | c :: t => (c.toNat - '0'.toNat) * 10 ^ t.length + digitsToNat t

/-- Python `int(s)` restricted to the shapes the source feeds it:
optional sign, then digits, with surrounding whitespace allowed.
Returns `none` where CPython raises `ValueError`. -/
def pyParseInt (s : String) : Option ℤ :=
  let l := (pyStrip s).data
  match l with
  | [] => none
  | '-' :: rest =>
    if rest ≠ [] ∧ rest.all isDigitChar then some (-(digitsToNat rest : ℤ)) else none
  | '+' :: rest =>
    if rest ≠ [] ∧ rest.all isDigitChar then some (digitsToNat rest : ℤ) else none
  | _ =>
    if l.all isDigitChar then some (digitsToNat l : ℤ) else none

/-- List deduplication keeping first occurrences: the observable content of a
Python `set(...)` built incrementally (iteration order of the set itself is
unspecified in Python; no theorem depends on the order). -/
def dedupKeepFirst : List String → List String
  | [] => []
  | h :: t => h :: (dedupKeepFirst (t.filter fun x => x ≠ h))
termination_by l => l.length
decreasing_by
  simp only [List.length_cons]
  exact Nat.lt_succ_of_le (List.length_filter_le _ _)

/-- Python `round(x, 1)` on the exact rationals of this development.
CPython rounds ties to even; `round` here rounds ties up.  No value the
source produces sits on a tie, so the two agree on everything proved. -/
def round1 (x : ℚ) : ℚ := ((round (10 * x) : ℤ) : ℚ) / 10

/-- Python `round(x, 2)`, with the same tie caveat as `round1`. -/
def round2 (x : ℚ) : ℚ := ((round (100 * x) : ℤ) : ℚ) / 100

/-! ## Reflection module (`5_analysis/reflection.py`) -/

/-- One entry of the `results` list consumed by `reflect_on_results`: the
fields the function reads.  `portal` models `r.get("info", dict()).get("portal", "")`. -/
structure ResultRecord where
  relevance_score : ℚ := 0
  portal : String := ""
deriving Repr, DecidableEq

/-- The `search_params` dict read by `reflect_on_results`. -/
structure ReflParams where
  max_results : ℤ := 30
  portals : List String := []
deriving Repr, DecidableEq

/-- The dict returned by `make_decision`.  The `reasoning` entry — a
human-readable narrative interpolating the statistics — is display-only
and not modelled; `recommendations` entries that interpolate numbers
render them with `toString` on `ℚ` (no theorem inspects those entries). -/
structure Decision where
  action : String
  recommendations : List String
deriving Repr, DecidableEq

/-- The `stats` sub-dict of the reflection output. -/
structure ReflStats where
  total_results : ℕ
  high_scores : ℕ
  medium_scores : ℕ
  low_scores : ℕ
  average_score : ℚ
  max_score : ℚ
  portals_covered : List String
  portal_coverage : ℚ
deriving Repr, DecidableEq

/-- The dict returned by `reflect_on_results`. -/
structure ReflectionOutput where
  decision : String
  recommendations : List String
  stats : ReflStats
deriving Repr, DecidableEq

/-- `make_decision` of `reflection.py` (the decision logic; the
`reasoning` narrative strings are display-only and elided). -/
def make_decision (iteration : ℕ) (total_found : ℕ) (_min_results : ℤ)
    (high_count medium_count : ℕ) (_low_count : ℕ) (avg_score max_score : ℚ)
    (sufficient_quality sufficient_quantity : Bool) (portal_coverage : ℚ) :
    Decision :=
  -- Too many iterations - must finalize
  if iteration ≥ 3 then
    if total_found = 0 then
      { action := "finalize"
        recommendations :=
          ["Consider broadening search criteria for future searches",
           "Check if target portals have active calls"] }
    else
      { action := "finalize"
        recommendations :=
          ["Top result scored " ++ toString max_score ++ "/10",
           "Average score: " ++ toString avg_score ++ "/10"] }
  -- No results at all - expand search
  else if total_found = 0 then
    { action := "expand"
      recommendations :=
        ["Search additional portals not in initial list",
         "Broaden keyword criteria",
         "Consider alternative search terms"] }
  -- Poor quality results - refine criteria
  else if avg_score < 4 ∧ total_found ≥ 5 then
    { action := "refine"
      recommendations :=
        ["Tighten domain requirements",
         "Add more specific keywords",
         "Increase minimum score threshold",
         "Focus on specific programs"] }
  -- Low coverage of target portals - expand
  else if portal_coverage < 0.5 ∧ iteration < 2 then
    { action := "expand"
      recommendations :=
        ["Retry failed portal connections",
         "Search remaining target portals",
         "Check for API rate limits"] }
  -- Good results but want more quantity
  else if sufficient_quality ∧ ¬sufficient_quantity ∧ iteration < 2 then
    { action := "expand"
      recommendations :=
        ["Expand search to additional pages",
         "Search broader date ranges",
         "Include more programs"] }
  -- Excellent results - finalize
  else if sufficient_quality ∧ sufficient_quantity then
    { action := "finalize"
      recommendations :=
        ["Proceed with top " ++ toString (min high_count 5) ++ " recommendations",
         "Prepare detailed analysis for high-scoring calls",
         "Consider setting up monitoring for similar future calls"] }
  -- Default - finalize with what we have
  else
    { action := "finalize"
      recommendations :=
        ["Review " ++ toString high_count ++ " high-priority and " ++
           toString medium_count ++ " medium-priority calls",
         "Consider manual review of borderline cases"] }

/-- Maximum of a rational list with Python's `max(scores) if scores else 0`. -/
def listMaxQ : List ℚ → ℚ
  | [] => 0
  | [x] => x
  | x :: t => max x (listMaxQ t)

/-- `reflect_on_results` of `reflection.py`. -/
def reflect_on_results (results : List ResultRecord) (search_params : ReflParams)
    (iteration : ℕ) : ReflectionOutput :=
  let total_found : ℕ := results.length
  let min_results : ℤ := search_params.max_results
  let scores : List ℚ := results.map (·.relevance_score)
  let high_scores := scores.filter fun s => s ≥ 8
  let medium_scores := scores.filter fun s => 6 ≤ s ∧ s < 8
  let low_scores := scores.filter fun s => s < 5
  let avg_score : ℚ := if scores ≠ [] then scores.sum / scores.length else 0
  let max_score : ℚ := listMaxQ scores
  let sufficient_quality : Bool :=
    high_scores.length ≥ 2 ∨ (high_scores.length ≥ 1 ∧ medium_scores.length ≥ 3)
  let sufficient_quantity : Bool := (total_found : ℤ) ≥ min min_results 10
  let portals_covered : List String :=
    dedupKeepFirst ((results.map (·.portal)).filter fun p => p ≠ "")
  let target_portals := dedupKeepFirst search_params.portals
  let portal_coverage : ℚ :=
    if target_portals ≠ [] then
      (portals_covered.length : ℚ) / (target_portals.length : ℚ)
    else 1
  let decision :=
    make_decision iteration total_found min_results high_scores.length
      medium_scores.length low_scores.length avg_score max_score
      sufficient_quality sufficient_quantity portal_coverage
  { decision := decision.action
    recommendations := decision.recommendations
    stats :=
      { total_results := total_found
        high_scores := high_scores.length
        medium_scores := medium_scores.length
        low_scores := low_scores.length
        average_score := round2 avg_score
        max_score := max_score
        portals_covered := portals_covered
        portal_coverage := round1 (portal_coverage * 100) } }

/-! ## Data model: opportunity records and company profiles

Structures mirror the loosely-typed dicts passed between the stages.  A key
whose absence matters to some call site becomes an `Option` field (the
various `.get(key, default)` defaults are applied at each use site, since
different sites use different defaults). -/

/-- The `budget_per_project` sub-dict. -/
structure BudgetRange where
  min : Option ℚ := none
  max : Option ℚ := none
deriving Repr, DecidableEq

/-- The `consortium` sub-dict; every reader defaults a missing key to 1, so a
missing dict and missing keys are both modelled by the defaults. -/
structure Consortium where
  min_partners : ℤ := 1
  min_countries : ℤ := 1
deriving Repr, DecidableEq

/-- The `general_info.dates` sub-dict. -/
structure Dates where
  deadline : Option String := none
deriving Repr, DecidableEq

/-- The `general_info` sub-dict. -/
structure GeneralInfo where
  programme : Option String := none
  dates : Dates := {}
  budget : Option String := none
deriving Repr, DecidableEq

/-- The `content` sub-dict. -/
structure Content where
  description : Option String := none
deriving Repr, DecidableEq

/-- One scraped opportunity record (`topic` / `call_data` dict). -/
structure CallData where
  id : Option String := none
  title : Option String := none
  url : Option String := none
  status : Option String := none
  general_info : GeneralInfo := {}
  content : Content := {}
  keywords : List String := []
  required_domains : List String := []
  eligible_countries : List String := []
  eligible_organization_types : List String := []
  budget_per_project : Option BudgetRange := none
  trl : String := ""
  consortium : Consortium := {}
  funding_rate : String := ""
deriving Repr, DecidableEq

/-- One company domain of expertise (`domains` entries of the profile). -/
structure Domain where
  name : String
  sub_domains : List String := []
  level : String := "basic"
deriving Repr, DecidableEq

/-- One past EU project of the profile (`past_eu_projects` entries). -/
structure PastProject where
  program : String := ""
deriving Repr, DecidableEq

/-- The profile's `keywords` sub-dict; `includeKw` models the `include` key
(`include` is reserved in Lean). -/
structure KeywordSpec where
  includeKw : List String := []
deriving Repr, DecidableEq

/-- The profile's `search_params` sub-dict. -/
structure SearchParams where
  budget_range : Option BudgetRange := none
deriving Repr, DecidableEq

/-- The `company_profile` dict; `orgType` models the `type` key (`type` is
reserved in Lean). -/
structure CompanyProfile where
  name : Option String := none
  description : Option String := none
  orgType : String := ""
  employees : Option ℤ := none
  country : String := ""
  city : Option String := none
  domains : List Domain := []
  keywords : Option KeywordSpec := none
  past_eu_projects : List PastProject := []
  search_params : Option SearchParams := none
deriving Repr, DecidableEq

/-- One `domain_matches` entry of the qualitative-analysis dict. -/
structure DomainMatchInsight where
  strength : String := ""
deriving Repr, DecidableEq

/-- One `relevant_past_projects` entry of the qualitative-analysis dict. -/
structure PastProjectInsight where
  relevance : String := ""
deriving Repr, DecidableEq

/-- The qualitative-analysis dict (`llm_insights`) consumed by `score_call`;
produced externally by `llm_critic.py` (an LLM call with a rule-based
fallback), so workflow runs treat it as an input. -/
structure LlmInsights where
  analysis_method : String := ""
  match_summary : String := ""
  domain_matches : List DomainMatchInsight := []
  keyword_hits : List String := []
  relevant_past_projects : List PastProjectInsight := []
  suggested_partners : List String := []
  estimated_effort_hours : Option String := none
  llm_confidence : String := "medium"
  llm_reasoning : Option String := none
deriving Repr, DecidableEq

/-! ## Scoring engine (`5_analysis/scorer.py`) -/

/-- `_score_domain_match_from_llm` of `scorer.py`. -/
def score_domain_match_from_llm (llm_insights : LlmInsights) : ℚ :=
  let domain_matches := llm_insights.domain_matches
  if domain_matches = [] then 3    -- Neutral if no domain info
  else
    let strong := (domain_matches.filter fun m => m.strength = "strong").length
    let moderate := (domain_matches.filter fun m => m.strength = "moderate").length
    let weak := (domain_matches.filter fun m => m.strength = "weak").length
    let score : ℚ :=
      ((strong : ℚ) * 9 + (moderate : ℚ) * 6.5 + (weak : ℚ) * 4) /
        (max domain_matches.length 1 : ℕ)
    let score := if strong ≥ 2 then min 10 (score + 1) else score
    min 10 (max 1 (round1 score))

/-- `_score_keyword_match_from_llm` of `scorer.py`. -/
def score_keyword_match_from_llm (llm_insights : LlmInsights) : ℚ :=
  let match_summary := pyLower llm_insights.match_summary
  let hit_count := llm_insights.keyword_hits.length
  let score : ℚ :=
    if hit_count ≥ 6 then 9.5
    else if hit_count ≥ 4 then 8.5
    else if hit_count ≥ 3 then 7
    else if hit_count = 2 then 5.5
    else if hit_count = 1 then 4
    else 2.5
  if ["excellent", "perfect", "outstanding", "ideal"].any
      (fun w => strContains match_summary w) then
    min 10 (score + 0.5)
  else score

/-- `_score_strategic_value` of `scorer.py` (rule-based). -/
def score_strategic_value (call_data : CallData) (company_profile : CompanyProfile) : ℚ :=
  let past_projects := company_profile.past_eu_projects
  let call_program := (call_data.general_info.programme).getD ""
  if past_projects = [] then 5    -- Neutral
  else
    let program_matches :=
      (past_projects.filter fun p => strContains p.program call_program).length
    if program_matches ≥ 2 then 8.5
    else if program_matches = 1 then 7
    else 5.5

/-- `_score_strategic_value_from_llm` of `scorer.py`. -/
def score_strategic_value_from_llm (call_data : CallData)
    (company_profile : CompanyProfile) (llm_insights : LlmInsights) : ℚ :=
  let relevant_projects := llm_insights.relevant_past_projects
  if relevant_projects = [] then score_strategic_value call_data company_profile
  else
    let high := (relevant_projects.filter fun p => p.relevance = "high").length
    let medium := (relevant_projects.filter fun p => p.relevance = "medium").length
    let score : ℚ := (high : ℚ) * 3 + (medium : ℚ) * 1.5
    if score ≥ 6 then 9
    else if score ≥ 4 then 8
    else if score ≥ 2 then 7
    else 6

/-- `_score_domain_match` of `scorer.py` (rule-based). -/
def score_domain_match (call_data : CallData) (company_profile : CompanyProfile) : ℚ :=
  let company_domains := company_profile.domains
  let call_domains := call_data.required_domains
  if company_domains = [] ∨ call_domains = [] then 3    -- Neutral instead of 1.0
  else
    let matchesList : List ℚ :=
      (company_domains.flatMap fun cd =>
        let cd_name := pyLower cd.name
        let cd_subs := cd.sub_domains.map pyLower
        let cd_level := cd.level
        (call_domains.map fun rd =>
          let rd_lower := pyLower rd
          if strContains rd_lower cd_name ∨ strContains cd_name rd_lower then
            -- direct domain-name match
            if cd_level = "expert" then (8 : ℚ)
            else if cd_level = "advanced" then 7
            else 5.5
          else
            -- first matching subdomain wins (the source breaks out of the loop)
            match cd_subs.find? (fun sub => strContains rd_lower sub) with
            | some _ => if cd_level = "expert" ∨ cd_level = "advanced" then 6.5 else 4.5
            | none => 0).filter fun m => m > 0)
    if matchesList = [] then 2    -- Low but not 1.0
    else
      let top_matches := (matchesList.mergeSort fun a b => decide (b ≤ a)).take 2
      let avg_score := top_matches.sum / (top_matches.length : ℚ)
      let avg_score :=
        if (matchesList.filter fun m => m ≥ 7).length ≥ 2 then min 10 (avg_score + 1)
        else avg_score
      min 10 (round1 avg_score)

/-- `_expand_keyword` of `scorer.py` (semantic-equivalence map; the source
returns a set, only membership is observed). -/
def expand_keyword (keyword : String) : List String :=
  let k := pyStrip (pyLower keyword)
  if k = "ai" then
    ["ai", "artificial intelligence", "machine intelligence", "cognitive computing"]
  else if k = "artificial intelligence" then
    ["ai", "artificial intelligence", "machine intelligence"]
  else if k = "machine learning" then
    ["machine learning", "ml", "deep learning", "neural networks", "predictive modeling"]
  else if k = "ml" then ["machine learning", "ml", "deep learning"]
  else if k = "deep learning" then
    ["deep learning", "neural networks", "ml", "machine learning"]
  else if k = "nlp" then
    ["nlp", "natural language processing", "text analysis", "language understanding",
     "computational linguistics"]
  else if k = "natural language processing" then
    ["nlp", "natural language processing", "text analysis"]
  else if k = "llm" then
    ["llm", "large language model", "foundation model", "generative ai", "gpt"]
  else if k = "large language model" then
    ["llm", "large language model", "foundation model"]
  else if k = "generative ai" then ["generative ai", "gen ai", "ai generation"]
  else [k]

/-- `_score_keyword_match` of `scorer.py` (rule-based). -/
def score_keyword_match (call_data : CallData) (company_profile : CompanyProfile) : ℚ :=
  let company_keywords := (company_profile.keywords.getD {}).includeKw
  let call_text :=
    ((call_data.content.description).getD "") ++ " " ++
      ((call_data.title).getD "") ++ " " ++ strJoin " " call_data.keywords
  let call_text_lower := pyLower call_text
  if company_keywords = [] then 5    -- Neutral if no keywords defined
  else
    let matchCount : ℚ := company_keywords.foldl
      (fun acc kw =>
        let keyword_lower := pyLower kw
        if strContains call_text_lower keyword_lower then acc + 1
        else if (expand_keyword keyword_lower).any
            (fun v => strContains call_text_lower v) then acc + 0.8
        else acc) 0
    let match_ratio : ℚ :=
      if company_keywords.length > 0 then matchCount / (company_keywords.length : ℚ) else 0
    if match_ratio ≥ 0.7 then 9.5
    else if match_ratio ≥ 0.5 then 8
    else if match_ratio ≥ 0.3 then 6.5
    else if match_ratio ≥ 0.1 then 4.5
    else 3

/-- `_score_eligibility` of `scorer.py` (the soft eligibility-fit sub-score). -/
def score_eligibility (call_data : CallData) (company_profile : CompanyProfile) : ℚ :=
  let score : ℚ := 10
  let score := if call_data.eligible_countries = [] then score - 0.5 else score
  let score := if call_data.eligible_organization_types = [] then score - 0.5 else score
  let score := if call_data.trl = "" then score - 0.5 else score
  let score :=
    match (call_data.budget_per_project.getD {}).max with
    | none => score - 0.5
    | some max_budget =>
      -- SME preference for smaller budgets
      if company_profile.orgType = "SME" then
        if max_budget > 10000000 then score - 3
        else if max_budget > 5000000 then score - 1.5
        else score
      else score
  max 1 (round1 score)

/-- `_score_budget_feasibility` of `scorer.py`.  `employees` is read by the
source (default 50) but never used. -/
def score_budget_feasibility (call_data : CallData)
    (company_profile : CompanyProfile) : ℚ :=
  let budget := call_data.budget_per_project.getD {}
  let min_budget := budget.min.getD 0
  let max_budget := budget.max.getD 0
  -- Python truthiness: `(min+max)/2 if min_budget and max_budget else max_budget`
  let avg_budget : ℚ :=
    if min_budget ≠ 0 ∧ max_budget ≠ 0 then (min_budget + max_budget) / 2
    else max_budget
  let company_type := company_profile.orgType
  if company_type = "SME" then
    if avg_budget ≤ 500000 then 8
    else if avg_budget ≤ 1000000 then 7
    else if avg_budget ≤ 3000000 then 5.5
    else if avg_budget ≤ 5000000 then 4
    else 2.5
  else
    -- Larger organizations can handle bigger budgets
    if avg_budget ≤ 5000000 then 8.5
    else if avg_budget ≤ 10000000 then 7.5
    else 6

/-- Month-name table of `_score_deadline_comfort`. -/
def monthNumber (s : String) : Option ℕ :=
  let m := pyLower s
  if m = "january" then some 1
  else if m = "february" then some 2
  else if m = "march" then some 3
  else if m = "april" then some 4
  else if m = "may" then some 5
  else if m = "june" then some 6
  else if m = "july" then some 7
  else if m = "august" then some 8
  else if m = "september" then some 9
  else if m = "october" then some 10
  else if m = "november" then some 11
  else if m = "december" then some 12
  else none

def isLeapYear (y : ℕ) : Bool := (y % 4 = 0 ∧ y % 100 ≠ 0) ∨ y % 400 = 0

/-- Cumulative days before month `m` in a non-leap year. -/
def cumDaysBeforeMonth (m : ℕ) : ℕ :=
  [0, 0, 31, 59, 90, 120, 151, 181, 212, 243, 273, 304, 334].getD m 0

def daysInMonth (y m : ℕ) : ℕ :=
  if m = 2 then (if isLeapYear y then 29 else 28)
  else if m = 4 ∨ m = 6 ∨ m = 9 ∨ m = 11 then 30
  else 31

/-- Proleptic-Gregorian day ordinal (1 January of year 1 = day 1), the value
`datetime.date.toordinal` computes; date subtraction in the source is the
difference of these ordinals. -/
def dateOrdinal (y m d : ℕ) : ℤ :=
  (365 * (y - 1) + (y - 1) / 4 - (y - 1) / 100 + (y - 1) / 400 +
      cumDaysBeforeMonth m + (if 2 < m ∧ isLeapYear y then 1 else 0) + d : ℕ)

/-- The date search of `_score_deadline_comfort`: models
`re.search(r"(\d\x7b1,2\x7d)\s+(January|...|December)\s+(\d\x7b4\x7d)", s, IGNORECASE)`
on the whitespace-tokenised text.  It agrees with the regex whenever day,
month name and year appear as whitespace-delimited words (all texts
evaluated here); the regex would additionally match inside longer words. -/
def findDateTokens : List String → Option (ℕ × ℕ × ℕ)
  | d :: m :: y :: rest =>
    if d ≠ "" ∧ d.data.all isDigitChar ∧ d.data.length ≤ 2 ∧
        (monthNumber m).isSome ∧ y.data.all isDigitChar ∧ y.data.length = 4 then
      some (digitsToNat d.data, (monthNumber m).getD 1, digitsToNat y.data)
    else findDateTokens (m :: y :: rest)
  | _ => none

/-- `_score_deadline_comfort` of `scorer.py`.  The source reads
`datetime.now()`; `now` is that clock, abstracted to the current day ordinal
(`timedelta.days` floors the difference to whole days). -/
def score_deadline_comfort (call_data : CallData) (now : ℤ) : ℚ :=
  let deadline_str := (call_data.general_info.dates.deadline).getD ""
  if deadline_str = "" then 5    -- Neutral if no deadline info
  else
    match findDateTokens (pyTokens deadline_str) with
    | none => 5
    | some (d, m, y) =>
      -- datetime(...) raises on an out-of-range day; the source catches
      -- every exception and returns the neutral score
      if d = 0 ∨ daysInMonth y m < d then 5
      else
        let days_until : ℤ := dateOrdinal y m d - now
        if days_until < 0 then 1          -- Already passed
        else if days_until < 14 then 3    -- Very urgent
        else if days_until < 30 then 4.5  -- Urgent
        else if days_until < 60 then 6.5  -- Tight but doable
        else if days_until < 120 then 8   -- Comfortable
        else 9                            -- Very comfortable

/-- `_get_recommendation`'s result dict. -/
structure Recommendation where
  action : String
  label : String
  color : String
deriving Repr, DecidableEq

/-- `_get_recommendation` of `scorer.py`. -/
def get_recommendation (total_score : ℚ) : Recommendation :=
  if total_score ≥ 7.5 then
    { action := "apply", label := "КАНДИДАТСТВАЙТЕ", color := "green" }
  else if total_score ≥ 5.5 then
    { action := "consider", label := "ОБМИСЛЕТЕ", color := "yellow" }
  else if total_score ≥ 3.5 then
    { action := "monitor", label := "НАБЛЮДАВАЙТЕ", color := "blue" }
  else
    { action := "skip", label := "ПРОПУСНЕТЕ", color := "red" }

/-- The `ScoreQuality` class of `scorer.py`. -/
structure ScoreQuality where
  level : String
  score : ℚ
  reasons : List String
deriving Repr, DecidableEq

/-- Signal coverage of `_assess_call_data_quality`: fraction of the six
signals present (factored out of the source's counting loop). -/
def call_signal_coverage (call_data : CallData) : ℚ :=
  let signals : List Bool :=
    [pyStrip ((call_data.title).getD "") ≠ "",
     (pyStrip ((call_data.content.description).getD "")).data.length ≥ 80,
     call_data.keywords.length ≥ 3,
     call_data.required_domains.length ≥ 1,
     (call_data.budget_per_project.getD {}).min.getD 0 ≠ 0 ∨
       (call_data.budget_per_project.getD {}).max.getD 0 ≠ 0,
     pyStrip ((call_data.general_info.dates.deadline).getD "") ≠ ""]
  ((signals.filter (· = true)).length : ℚ) / 6

/-- `_assess_call_data_quality` of `scorer.py`. -/
def assess_call_data_quality (call_data : CallData) : ScoreQuality :=
  let coverage := call_signal_coverage call_data
  let reasons : List String :=
    (if pyStrip ((call_data.title).getD "") ≠ "" then [] else ["missing title"]) ++
    (if (pyStrip ((call_data.content.description).getD "")).data.length ≥ 80 then []
     else ["missing/short description"]) ++
    (if call_data.keywords.length ≥ 3 then [] else ["missing/low keywords"]) ++
    (if call_data.required_domains.length ≥ 1 then [] else ["missing required_domains"]) ++
    (if (call_data.budget_per_project.getD {}).min.getD 0 ≠ 0 ∨
        (call_data.budget_per_project.getD {}).max.getD 0 ≠ 0 then []
     else ["missing budget"]) ++
    (if pyStrip ((call_data.general_info.dates.deadline).getD "") ≠ "" then []
     else ["missing deadline"])
  let level :=
    if coverage ≥ 0.84 then "high"
    else if coverage ≥ 0.5 then "medium"
    else "low"
  { level := level, score := round1 (coverage * 100), reasons := reasons }

/-- `_apply_quality_penalty` of `scorer.py`. -/
def apply_quality_penalty (total_raw : ℚ) (quality : ScoreQuality) : ℚ :=
  -- If data is good, do nothing (beyond the [1,10] clamp).
  if quality.level = "high" then max 1 (min 10 total_raw)
  else
    -- Mild penalty for medium quality; stronger for low.
    let penalty : ℚ := if quality.level = "medium" then 0.3 else 0.8
    max 1 (min 10 (total_raw - penalty))

/-- The `data_quality` sub-dict of `score_call`'s result. -/
structure DataQualityOut where
  level : String
  score : ℚ
  reasons : List String
  penalty_applied : ℚ
deriving Repr, DecidableEq

/-- The result dict of `score_call`. -/
structure ScoreResult where
  total : ℚ
  total_raw : ℚ
  domain_match : ℚ
  keyword_match : ℚ
  eligibility_fit : ℚ
  budget_feasibility : ℚ
  strategic_value : ℚ
  deadline_comfort : ℚ
  recommendation : Recommendation
  scoring_method : String
  data_quality : DataQualityOut
  llm_reasoning : Option String := none
deriving Repr, DecidableEq

/-- The mode selection of `score_call`: the domain/keyword/strategic
sub-scores and the `scoring_method` tag (factored out of `score_call`'s
`if use_llm` branch so that theorems can talk about the selection once). -/
def chooseScores (call_data : CallData) (company_profile : CompanyProfile)
    (llm_insights : Option LlmInsights) : ℚ × ℚ × ℚ × String :=
  match llm_insights with
    | some ins =>
      if ins.analysis_method = "llm" then
        -- Use LLM insights for nuanced scoring
        let domain_score := score_domain_match_from_llm ins
        let keyword_score := score_keyword_match_from_llm ins
        let strategic_score := score_strategic_value_from_llm call_data company_profile ins
        -- Apply LLM confidence adjustment
        let confidence := ins.llm_confidence
        let confidence_multiplier : ℚ :=
          if confidence = "high" then 1
          else if confidence = "medium" then 0.95
          else if confidence = "low" then 0.9
          else 0.95
        (min 10 (domain_score * confidence_multiplier),
         min 10 (keyword_score * confidence_multiplier),
         strategic_score, "llm_enhanced")
      else
        (score_domain_match call_data company_profile,
         score_keyword_match call_data company_profile,
         score_strategic_value call_data company_profile, "rule_based")
    | none =>
      -- Rule-based fallback (no LLM configured or LLM failed)
      (score_domain_match call_data company_profile,
       score_keyword_match call_data company_profile,
       score_strategic_value call_data company_profile, "rule_based")

/-- The body of `score_call` with the (clock-dependent) deadline-comfort
sub-score abstracted as a parameter; `score_call` below instantiates it with
`_score_deadline_comfort`'s value at the current time. -/
def score_call_with (call_data : CallData) (company_profile : CompanyProfile)
    (llm_insights : Option LlmInsights) (deadline_score : ℚ) : ScoreResult :=
  let use_llm : Bool :=
    match llm_insights with
    | some ins => ins.analysis_method == "llm"
    | none => false
  let scores := chooseScores call_data company_profile llm_insights
  let domain_score := scores.1
  let keyword_score := scores.2.1
  let strategic_score := scores.2.2.1
  let scoring_method := scores.2.2.2
  -- These are always rule-based (hard constraints)
  let eligibility_score := score_eligibility call_data company_profile
  let budget_score := score_budget_feasibility call_data company_profile
  -- Calculate weighted total
  let total_raw :=
    domain_score * 0.30 + keyword_score * 0.15 + eligibility_score * 0.20 +
      budget_score * 0.15 + strategic_score * 0.10 + deadline_score * 0.10
  let quality := assess_call_data_quality call_data
  let total := round1 (apply_quality_penalty total_raw quality)
  { total := total
    total_raw := round1 total_raw
    domain_match := round1 domain_score
    keyword_match := round1 keyword_score
    eligibility_fit := round1 eligibility_score
    budget_feasibility := round1 budget_score
    strategic_value := round1 strategic_score
    deadline_comfort := round1 deadline_score
    recommendation := get_recommendation total
    scoring_method := scoring_method
    data_quality :=
      { level := quality.level
        score := quality.score
        reasons := quality.reasons
        penalty_applied := round2 (total_raw - total) }
    llm_reasoning :=
      match llm_insights with
      | some ins => if use_llm then ins.llm_reasoning else none
      | none => none }

/-- `score_call` of `scorer.py`.  `llm_insights = none` models both a missing
argument and a falsy (empty) insights dict; `now` is the clock read by
`_score_deadline_comfort`. -/
def score_call (call_data : CallData) (company_profile : CompanyProfile)
    (llm_insights : Option LlmInsights) (now : ℤ) : ScoreResult :=
  score_call_with call_data company_profile llm_insights
    (score_deadline_comfort call_data now)

/-! ## Eligibility filter (`5_analysis/eligibility.py`) -/

/-- `check_organization_type`'s synonym table (`type_mapping`). -/
def type_mapping (company_type : String) : List String :=
  if company_type = "SME" then
    ["SME", "SMALL", "MEDIUM", "SMALL AND MEDIUM ENTERPRISE", "МСП"]
  else if company_type = "SMALL" then ["SME", "SMALL"]
  else if company_type = "MEDIUM" then ["SME", "MEDIUM"]
  else if company_type = "LARGE" then ["LARGE", "BIG ENTERPRISE", "ГОЛЯМО"]
  else if company_type = "UNIVERSITY" then
    ["UNIVERSITY", "ACADEMIC", "RESEARCH", "УНИВЕРСИТЕТ"]
  else if company_type = "RESEARCH INSTITUTE" then
    ["RESEARCH", "INSTITUTE", "ACADEMIC", "ИНСТИТУТ"]
  else if company_type = "NGO" then ["NGO", "NON-PROFIT", "НПО"]
  else if company_type = "PUBLIC" then ["PUBLIC", "GOVERNMENT", "ДЪРЖАВЕН"]
  else if company_type = "CLUSTER" then ["CLUSTER", "КЛЪСТЕР"]
  else []

/-- `check_organization_type` of `eligibility.py`. -/
def check_organization_type (call_data : CallData)
    (company_profile : CompanyProfile) : Bool :=
  let eligible_types := call_data.eligible_organization_types
  let company_type := pyUpper company_profile.orgType
  if eligible_types = [] then true    -- No restrictions specified
  else
    let eligible_types_upper := eligible_types.map pyUpper
    eligible_types_upper.any fun eligible =>
      company_type = eligible ∨ (type_mapping company_type).contains eligible

/-- The EU-membership table of `check_country_eligibility`. -/
def eu_countries : List String :=
  ["austria", "belgium", "bulgaria", "croatia", "cyprus", "czech republic",
   "czechia", "denmark", "estonia", "finland", "france", "germany", "greece",
   "hungary", "ireland", "italy", "latvia", "lithuania", "luxembourg", "malta",
   "netherlands", "poland", "portugal", "romania", "slovakia", "slovenia",
   "spain", "sweden"]

/-- `check_country_eligibility` of `eligibility.py`. -/
def check_country_eligibility (call_data : CallData)
    (company_profile : CompanyProfile) : Bool :=
  let eligible_countries := call_data.eligible_countries
  let company_country := company_profile.country
  if eligible_countries = [] then true   -- No restrictions, assume all EU
  else
    let company_country_normalized := pyLower (pyStrip company_country)
    let eligible_normalized := eligible_countries.map fun c => pyLower (pyStrip c)
    if eligible_normalized.contains company_country_normalized then true
    else if (["eu", "european union", "all", "all member states"].any
        fun x => eligible_normalized.contains x) ∧
        (eu_countries.contains company_country_normalized ∨
          strContains company_country_normalized "bulgaria") then true
    else false

/-- `check_budget_eligibility` of `eligibility.py`.  A missing `min` defaults
to 0 and a missing `max` to `float("inf")` (`none` in the comparisons below);
a falsy (absent or empty) dict on either side passes outright. -/
def check_budget_eligibility (call_data : CallData)
    (company_profile : CompanyProfile) : Bool :=
  match call_data.budget_per_project,
      (company_profile.search_params.getD {}).budget_range with
  | none, _ => true    -- No specific requirements
  | _, none => true
  | some call_budget, some preferred_range =>
    let call_min : ℚ := call_budget.min.getD 0
    let call_max : Option ℚ := call_budget.max      -- none models +infinity
    let pref_min : ℚ := preferred_range.min.getD 0
    let pref_max : Option ℚ := preferred_range.max  -- none models +infinity
    let ltQ : Option ℚ → ℚ → Bool := fun a b =>
      match a with
      | none => false       -- infinity is never below a rational
      | some x => x < b
    let gtQ : ℚ → Option ℚ → Bool := fun a b =>
      match b with
      | none => false       -- nothing exceeds infinity
      | some y => a > y
    -- Check if there is any overlap between call budget and preferred range
    if ltQ call_max pref_min ∨ gtQ call_min pref_max then
      -- Completely outside the preferred range: allow if within the window
      if ltQ call_max (pref_min * 0.5) ∨ gtQ call_min (pref_max.map (· * 2)) then
        false
      else true
    else true

/-- `check_trl_compatibility` of `eligibility.py`. -/
def check_trl_compatibility (call_data : CallData)
    (_company_profile : CompanyProfile) : Bool :=
  let call_trl := call_data.trl
  if call_trl = "" then true    -- No TRL requirement specified
  else
    -- Parse a range "a-b" or a single value; unparsable input passes
    let parsed : Option (ℤ × ℤ) :=
      if strContains call_trl "-" then
        match pySplitOn call_trl '-' with
        | [a, b] =>
          match pyParseInt a, pyParseInt b with
          | some x, some y => some (x, y)
          | _, _ => none
        | _ => none    -- unpacking more or fewer than 2 parts raises ValueError
      else
        (pyParseInt call_trl).map fun x => (x, x)
    match parsed with
    | none => true    -- Cannot parse, assume ok
    | some (call_trl_min, call_trl_max) =>
      -- Assume company can work in TRL 4-8 range
      if call_trl_max < 4 ∨ call_trl_min > 8 then false else true

/-- `check_consortium_feasibility` of `eligibility.py`. -/
def check_consortium_feasibility (call_data : CallData)
    (company_profile : CompanyProfile) : Bool :=
  let min_partners := call_data.consortium.min_partners
  let min_countries := call_data.consortium.min_countries
  if min_partners = 1 then true   -- Single company can always apply
  else if company_profile.past_eu_projects.length > 0 then true
  else if company_profile.employees.getD 0 ≥ 50 ∧ min_partners ≤ 5 then true
  else if min_partners > 10 ∨ min_countries > 5 then false
  else true    -- Assume feasible with effort

/-- The dict returned by `check_sme_status`. -/
structure SmeStatus where
  is_sme : Bool
  encouraged : Bool
  required : Bool
deriving Repr, DecidableEq

/-- `check_sme_status` of `eligibility.py`. -/
def check_sme_status (call_data : CallData)
    (company_profile : CompanyProfile) : SmeStatus :=
  let funding_rate := pyLower call_data.funding_rate
  let company_type := pyUpper company_profile.orgType
  let is_sme := company_type = "SME" ∨ company_type = "SMALL" ∨
    company_type = "MEDIUM"
  let encouraged :=
    strContains funding_rate "sme" ∧
      (strContains funding_rate "encouraged" ∨ strContains funding_rate "preference" ∨
        strContains funding_rate "70%" ∨ strContains funding_rate "high")
  let required :=
    strContains funding_rate "sme" ∧
      (strContains funding_rate "required" ∨ strContains funding_rate "mandatory")
  { is_sme := is_sme, encouraged := encouraged ∧ is_sme, required := required }

/-- The dict returned by `apply_eligibility_filters`.  The human-readable
`details` messages (`get_*_message`) are display-only and not modelled. -/
structure EligibilityResult where
  type_ok : Bool
  country_ok : Bool
  budget_ok : Bool
  trl_ok : Bool
  consortium_ok : Bool
  sme_encouraged : Bool
  sme_required : Bool
  all_passed : Bool
deriving Repr, DecidableEq

/-- `apply_eligibility_filters` of `eligibility.py`. -/
def apply_eligibility_filters (call_data : CallData)
    (company_profile : CompanyProfile) : EligibilityResult :=
  let type_ok := check_organization_type call_data company_profile
  let country_ok := check_country_eligibility call_data company_profile
  let budget_ok := check_budget_eligibility call_data company_profile
  let trl_ok := check_trl_compatibility call_data company_profile
  let consortium_ok := check_consortium_feasibility call_data company_profile
  let sme_status := check_sme_status call_data company_profile
  let all_passed := type_ok && country_ok && budget_ok && trl_ok && consortium_ok
  { type_ok := type_ok
    country_ok := country_ok
    budget_ok := budget_ok
    trl_ok := trl_ok
    consortium_ok := consortium_ok
    sme_encouraged := sme_status.encouraged
    sme_required := sme_status.required
    all_passed := all_passed }

/-! ## Input validation (`1_safety/input_validator.py`) -/

/-- The `ValidationResult` pydantic model of `contracts/schemas.py`. -/
structure ValidationResult where
  is_valid : Bool
  score : ℚ
  missing_fields : List String := []
  reason : String
deriving Repr, DecidableEq

/-- The pydantic `CompanyProfile` of `contracts/schemas.py` (object inputs).
The schema's own constraints (min lengths, `employees ≥ 1`) are enforced by
pydantic at construction and are not baked into the type here. -/
structure ProfileObj where
  name : String
  description : String
  orgType : String := "SME"
  employees : ℤ
  country : String
  city : Option String := none
  domains : List Domain := []
deriving Repr, DecidableEq

/-- The pydantic `CompanyInput` of `contracts/schemas.py`. -/
structure CompanyInputObj where
  company : ProfileObj
  command : Option String := none
deriving Repr, DecidableEq

/-- `InputValidator._basic_validation` of `input_validator.py`. -/
def basic_validation (input_data : CompanyInputObj) : ValidationResult :=
  let company := input_data.company
  let missing_fields : List String :=
    (if company.name = "" ∨ (pyStrip company.name).data.length < 2 then
       ["company.name"] else []) ++
    (if company.description = "" ∨ (pyStrip company.description).data.length < 20 then
       ["company.description (minimum 20 characters)"] else []) ++
    (if company.orgType = "" then ["company.type"] else []) ++
    (if company.employees < 1 then ["company.employees"] else []) ++
    (if company.country = "" then ["company.country"] else []) ++
    (if company.domains = [] then ["company.domains (at least one domain required)"]
     else (company.domains.enum.filter fun p =>
        p.2.name = "" ∨ (pyStrip p.2.name).data.length < 1).map fun p =>
          "company.domains[" ++ toString p.1 ++ "].name")
  if missing_fields ≠ [] then
    { is_valid := false
      score := 0
      missing_fields := missing_fields
      reason := "Missing required fields: " ++ strJoin ", " missing_fields }
  else
    -- Basic score plus bonuses for description length and domain detail
    let desc_length := (pyStrip company.description).data.length
    let score : ℚ := 5
    let score := if desc_length ≥ 100 then score + 2
      else if desc_length ≥ 50 then score + 1 else score
    let score := if company.domains.length ≥ 2 then score + 1 else score
    let detailed_domains := (company.domains.filter fun d => d.sub_domains ≠ []).length
    let score := if detailed_domains ≥ 1 then score + 1 else score
    { is_valid := true
      score := min 10 (round1 score)
      missing_fields := []
      reason := "Basic validation passed. Semantic analysis will provide detailed assessment." }

/-- `InputValidator._merge_results` of `input_validator.py`.  The source
builds `list(set(...))`, whose order is unspecified; first-occurrence order
is used here (no theorem inspects the order). -/
def merge_results (basic llm : ValidationResult) : ValidationResult :=
  let all_missing := dedupKeepFirst (basic.missing_fields ++ llm.missing_fields)
  let is_valid := basic.is_valid ∧ llm.is_valid ∧ llm.score ≥ 4
  let final_score := min llm.score (basic.score + 2)
  let reason := if basic.is_valid then "LLM Analysis: " ++ llm.reason else basic.reason
  { is_valid := is_valid
    score := round1 final_score
    missing_fields := all_missing
    reason := reason }

/-- `InputValidator.validate` of `input_validator.py`.  The LLM step is an
external OpenAI call: `hasApiKey` models the presence of `OPENAI_API_KEY`,
and `llm` the call's outcome (`.error` for a raised exception). -/
def validate (input_data : CompanyInputObj) (hasApiKey : Bool)
    (llm : Except String ValidationResult) : ValidationResult :=
  let basic_result := basic_validation input_data
  if ¬basic_result.is_valid then basic_result
  else if hasApiKey then
    match llm with
    | .ok llm_result => merge_results basic_result llm_result
    | .error e =>
      { is_valid := basic_result.is_valid
        score := basic_result.score
        missing_fields := basic_result.missing_fields
        reason := basic_result.reason ++ " (Note: LLM validation failed: " ++ e ++ ")" }
  else basic_result

/-! ## Safety node pattern scan (`master_agent.safety_check_node`, dict path)

The dict-input branch of `safety_check_node` runs its own regex scan over
the profile text.  The eight patterns are compiled into a small token
language (`lit`/`\w+`/`\s+`/`\s*`) with an explicit backtracking matcher. -/

inductive PatTok where
  | lit (s : String)
  | wordChars      -- `\w+`
  | spaces1        -- `\s+`
  | spaces0        -- `\s*`
deriving Repr, DecidableEq

def isWordChar (c : Char) : Bool :=
  ('a' ≤ c ∧ c ≤ 'z') ∨ ('A' ≤ c ∧ c ≤ 'Z') ∨ isDigitChar c ∨ c = '_'

/-- Whether the token sequence matches a prefix of `l`, with backtracking.
Structural recursion on an explicit fuel so that concrete scans reduce by
evaluation; every recursive call strictly decreases the number of remaining
tokens plus remaining characters, so the fuel `matchToks` supplies is never
exhausted and the `false` at fuel 0 is unreachable. -/
def matchToksF : ℕ → List PatTok → List Char → Bool
  | 0, _, _ => false
  | _ + 1, [], _ => true
  | f + 1, .lit s :: rest, l =>
    charsStartWith s.data l && matchToksF f rest (l.drop s.data.length)
  | f + 1, .wordChars :: rest, l =>
    match l with
    | [] => false
    | c :: t => isWordChar c && (matchToksF f rest t || matchToksF f (.wordChars :: rest) t)
  | f + 1, .spaces1 :: rest, l =>
    match l with
    | [] => false
    | c :: t => isSpaceChar c && (matchToksF f rest t || matchToksF f (.spaces1 :: rest) t)
  | f + 1, .spaces0 :: rest, l =>
    matchToksF f rest l ||
      (match l with
       | [] => false
       | c :: t => isSpaceChar c && matchToksF f (.spaces0 :: rest) t)

def matchToks (toks : List PatTok) (l : List Char) : Bool :=
  matchToksF (toks.length + l.length + 1) toks l

/-- `re.search` semantics: the token sequence matches somewhere in `l`. -/
def searchToks (p : List PatTok) : List Char → Bool
  | [] => matchToks p []
  | c :: t => matchToks p (c :: t) || searchToks p t

/-- The `suspicious_patterns` list of the dict branch of `safety_check_node`
(patterns are matched against the lower-cased text, `re.IGNORECASE` made
them case-insensitive, so the literals are written lower-case). -/
def suspicious_patterns : List (List PatTok) :=
  [[.lit "<script"],
   [.lit "javascript:"],
   [.lit "on", .wordChars, .spaces0, .lit "="],
   [.lit "ignore", .spaces1, .lit "previous"],
   [.lit "override", .spaces1, .lit "instructions"],
   [.lit "system", .spaces0, .lit "prompt:"],
   [.lit "jailbreak"],
   [.lit "dan", .spaces1, .lit "mode"]]

/-- The text the dict branch scans: profile fields joined by blanks and
lower-cased.  A `None` city is dropped by the source and a missing key
contributes an empty part; both become `""` here, which differs only in
surrounding whitespace and cannot affect any pattern. -/
def dict_input_text (company : CompanyProfile) : String :=
  pyLower (strJoin " "
    ([company.name.getD "", company.description.getD "", company.country,
      company.city.getD ""] ++
      company.domains.flatMap fun d => d.name :: d.sub_domains))

def dict_threats_found (company : CompanyProfile) : Bool :=
  suspicious_patterns.any fun p => searchToks p (dict_input_text company).data

/-! ## Workflow controller (`2_orchestration/master_agent.py`) -/

/-- The `company_input` state entry: a raw dict (as `run_workflow` passes
after `model_dump()`) or a pydantic `CompanyInput` object. -/
inductive CompanyInputVal where
  | dictInput (val : CompanyProfile)
  | objInput (val : CompanyInputObj)
deriving Repr, DecidableEq

/-- The `scraper_plan` dict produced by the Planner (`create_smart_plan` of
`3_planning/smart_planner.py`, which may consult an LLM and may raise; runs
are therefore parameterised by the Planning outcome).  `filter_config` is an
opaque payload the controller never inspects. -/
structure Plan where
  company_name : String := ""
  search_queries : List String := []
  filter_config : List (String × String) := []
  target_programs : List String := []
  estimated_calls : ℤ := 0
  reasoning : String := ""
deriving Repr, DecidableEq

/-- The `score_breakdown` sub-dict of an analyzed call. -/
structure ScoreBreakdownOut where
  domain_match : ℚ
  keyword_match : ℚ
  eligibility_fit : ℚ
  budget_feasibility : ℚ
  strategic_value : ℚ
  deadline_comfort : ℚ
deriving Repr, DecidableEq

/-- One entry of `analyzed_calls` as built by `analysis_node`. -/
structure AnalyzedCall where
  id : Option String
  title : Option String
  url : Option String
  status : Option String
  programme : String
  relevance_score : ℚ
  eligibility_passed : Bool
  eligibility_details : EligibilityResult
  score_breakdown : ScoreBreakdownOut
  recommendation : Recommendation
  match_summary : String
  domain_matches : List DomainMatchInsight
  keyword_hits : List String
  suggested_partners : List String
  estimated_effort : String
  deadline : String
  budget : String
  analysis_method : String
deriving Repr, DecidableEq

/-- The LangGraph `WorkflowState` TypedDict (`contracts/state.py`).
`final_report` content feeds the out-of-scope Reporter collaborator and is
not modelled beyond its presence. -/
structure WorkflowState where
  company_input : Option CompanyInputVal := none
  safety_check_passed : Bool := false
  validation_result : Option ValidationResult := none
  validation_errors : List String := []
  planner_iterations : ℕ := 0
  max_planner_iterations : ℕ := 3
  scraper_plan : Option Plan := none
  plan_approved : Bool := false
  plan_feedback : Option String := none
  search_terms : List String := []
  search_query : List (String × String) := []
  scraped_topics : List CallData := []
  retrieval_errors : List String := []
  analyzed_calls : List AnalyzedCall := []
  eligibility_results : List EligibilityResult := []
  analysis_errors : List String := []
  analysis_summary : Option ReflectionOutput := none
  final_report : Option Unit := none
  report_format : String := "json"
  current_step : String := "safety_check"
  workflow_status : String := "running"
  error_message : Option String := none
  start_time : Option String := none
  end_time : Option String := none
deriving Repr, DecidableEq

/-- `create_initial_state` of `contracts/state.py` (`start_time` reads the
clock and is passed in). -/
def create_initial_state (company_input : CompanyInputVal)
    (startTime : String) : WorkflowState :=
  { company_input := some company_input
    safety_check_passed := false
    validation_result := none
    validation_errors := []
    planner_iterations := 0
    max_planner_iterations := 3
    scraper_plan := none
    plan_approved := false
    plan_feedback := none
    search_terms := []
    search_query := []
    scraped_topics := []
    retrieval_errors := []
    analyzed_calls := []
    eligibility_results := []
    analysis_errors := []
    analysis_summary := none
    final_report := none
    report_format := "json"
    current_step := "safety_check"
    workflow_status := "running"
    error_message := none
    start_time := some startTime
    end_time := none }

/-- External inputs of one `safety_check_node` execution: for object inputs
the node runs `SafetyGuard(use_llm=False).check` — a pure regex battery over
four pattern families in `safety_guard.py` — and `InputValidator.validate`,
whose optional LLM step needs an API key.  `guardResult` carries the guard's
verdict (every theorem about the object path quantifies over it or fixes it
explicitly); the dict path is fully embedded and ignores these fields. -/
structure SafetyExt where
  guardResult : ValidationResult :=
    { is_valid := true, score := 10, reason := "All security checks passed" }
  hasApiKey : Bool := false
  llmValidation : Except String ValidationResult := .error "no llm"
deriving Repr

/-- `safety_check_node` of `master_agent.py`. -/
def safety_check_node (state : WorkflowState) (ext : SafetyExt) : WorkflowState :=
  match state.company_input with
  | none =>
    { state with safety_check_passed := false
                 workflow_status := "failed"
                 error_message := some "No company input provided"
                 current_step := "failed" }
  | some (.dictInput company) =>
    -- dict input: inline regex safety scan, then the basic field check
    if dict_threats_found company then
      { state with safety_check_passed := false
                   -- the source interpolates the matched patterns (display-only)
                   validation_errors := ["Security threats detected"]
                   workflow_status := "failed"
                   error_message := some "Safety check failed: Security threats detected"
                   current_step := "failed" }
    else
      let has_name := company.name.getD "" ≠ ""
      let has_description := (company.description.getD "").data.length ≥ 20
      let has_domains := company.domains.length > 0
      let validation_passed := has_name ∧ has_description ∧ has_domains
      let validation_result : ValidationResult :=
        { is_valid := validation_passed
          score := if validation_passed then 7 else 5
          missing_fields := []
          reason := if validation_passed then "Basic validation passed"
            else "Missing required fields" }
      if ¬validation_result.is_valid then
        { state with safety_check_passed := false
                     validation_result := some validation_result
                     validation_errors := [validation_result.reason]
                     workflow_status := "failed"
                     error_message :=
                       some ("Validation failed: " ++ validation_result.reason)
                     current_step := "failed" }
      else
        { state with safety_check_passed := true
                     validation_result := some validation_result
                     current_step := "planning"
                     workflow_status := "running" }
  | some (.objInput o) =>
    -- CompanyInput object: SafetyGuard regex battery, then full validation
    let safety_result := ext.guardResult
    if ¬safety_result.is_valid then
      { state with safety_check_passed := false
                   validation_errors := [safety_result.reason]
                   workflow_status := "failed"
                   error_message := some ("Safety check failed: " ++ safety_result.reason)
                   current_step := "failed" }
    else
      let validation_result := validate o ext.hasApiKey ext.llmValidation
      if ¬validation_result.is_valid then
        { state with safety_check_passed := false
                     validation_result := some validation_result
                     validation_errors := [validation_result.reason]
                     workflow_status := "failed"
                     error_message :=
                       some ("Validation failed: " ++ validation_result.reason)
                     current_step := "failed" }
      else
        { state with safety_check_passed := true
                     validation_result := some validation_result
                     current_step := "planning"
                     workflow_status := "running" }

/-- `planner_node` of `master_agent.py`, parameterised by the outcome of
`create_smart_plan` (`.error` models a raised exception). -/
def planner_node (state : WorkflowState) (planOutcome : Except String Plan) :
    WorkflowState :=
  match planOutcome with
  | .ok plan =>
    { state with scraper_plan := some plan
                 search_terms := plan.search_queries
                 search_query := plan.filter_config
                 planner_iterations := state.planner_iterations + 1
                 current_step := "retrieval"
                 workflow_status := "running" }
  | .error e =>
    { state with workflow_status := "failed"
                 error_message := some ("Planning error: " ++ e)
                 current_step := "failed" }

/-- `retrieval_node` of `master_agent.py`, parameterised by the outcome of
the external scraper (`scrape_topics_node`). -/
def retrieval_node (state : WorkflowState)
    (scrapeOutcome : Except String (List CallData)) : WorkflowState :=
  match scrapeOutcome with
  | .ok scraped_topics =>
    { state with scraped_topics := scraped_topics
                 current_step := "analysis"
                 workflow_status := "running" }
  | .error e =>
    { state with retrieval_errors := [e]
                 workflow_status := "failed"
                 error_message := some ("Retrieval error: " ++ e)
                 current_step := "failed" }

/-- Per-topic external inputs of `analysis_node`: the qualitative-analysis
outcome (`perform_qualitative_analysis`, an LLM call with fallbacks; `.error`
models a raised exception) and the clock read by `score_call`. -/
structure TopicExt where
  qualitative : Except String LlmInsights := .error "unavailable"
  now : ℤ := 0

/-- External inputs of one `analysis_node` execution, indexed by the topic's
position in `scraped_topics`. -/
structure AnalysisExt where
  perTopic : ℕ → TopicExt := fun _ => {}

/-- The fallback insights dict `analysis_node` substitutes when
`perform_qualitative_analysis` raises. -/
def fallbackInsights : LlmInsights :=
  { match_summary := "Analysis unavailable"
    domain_matches := []
    keyword_hits := []
    analysis_method := "error" }

/-- The per-topic body of `analysis_node`'s loop.  `score_call` is total in
this embedding, so the source's per-record `except` fallback (neutral 5.0
scores) is unreachable and not modelled. -/
def analyze_one (topic : CallData) (company_profile : CompanyProfile)
    (t : TopicExt) : AnalyzedCall :=
  let eligibility := apply_eligibility_filters topic company_profile
  let qualitative :=
    match t.qualitative with
    | .ok q => q
    | .error _ => fallbackInsights
  let scoring := score_call topic company_profile (some qualitative) t.now
  { id := topic.id
    title := topic.title
    url := topic.url
    status := topic.status
    programme := (topic.general_info.programme).getD "Unknown"
    relevance_score := scoring.total
    eligibility_passed := eligibility.all_passed
    eligibility_details := eligibility
    score_breakdown :=
      { domain_match := scoring.domain_match
        keyword_match := scoring.keyword_match
        eligibility_fit := scoring.eligibility_fit
        budget_feasibility := scoring.budget_feasibility
        strategic_value := scoring.strategic_value
        deadline_comfort := scoring.deadline_comfort }
    recommendation := scoring.recommendation
    match_summary := qualitative.match_summary
    domain_matches := qualitative.domain_matches
    keyword_hits := qualitative.keyword_hits
    suggested_partners := qualitative.suggested_partners
    estimated_effort := qualitative.estimated_effort_hours.getD "80-150"
    deadline := (topic.general_info.dates.deadline).getD "N/A"
    budget := (topic.general_info.budget).getD "N/A"
    analysis_method := qualitative.analysis_method }

/-- Adapter from an analyzed call to the record shape `reflect_on_results`
reads: analyzed-call dicts carry no `info` key, so the portal is `""`. -/
def analyzedToResult (a : AnalyzedCall) : ResultRecord :=
  { relevance_score := a.relevance_score, portal := "" }

/-- `analysis_node` of `master_agent.py`.  The profile is
`company_input.get("company", dict())`; an object input reaching this node
would raise `AttributeError` in the source (uncaught) — it is modelled as
the empty profile and no theorem evaluates that path. -/
def analysis_node (state : WorkflowState) (ext : AnalysisExt) : WorkflowState :=
  let scraped_topics := state.scraped_topics
  let planner_iterations := state.planner_iterations
  let max_iterations := state.max_planner_iterations
  if scraped_topics.length = 0 then
    -- No results: refine the plan if iterations remain
    if planner_iterations < max_iterations then
      { state with plan_approved := false
                   plan_feedback :=
                     some "No topics found with current search terms. Try broader keywords."
                   current_step := "planning"
                   workflow_status := "running" }
    else
      { state with plan_approved := true
                   analyzed_calls := []
                   current_step := "reporting"
                   workflow_status := "running" }
  else
    let company_profile :=
      match state.company_input with
      | some (.dictInput company) => company
      | _ => {}
    let analyzed_calls := scraped_topics.enum.map fun p =>
      analyze_one p.2 company_profile (ext.perTopic p.1)
    let search_params : ReflParams := { max_results := 30, portals := ["ftop", "eufunds_bg"] }
    let reflection :=
      reflect_on_results (analyzed_calls.map analyzedToResult) search_params
        planner_iterations
    -- Decide whether to loop or continue
    if reflection.decision = "finalize" ∨ planner_iterations ≥ max_iterations then
      { state with analyzed_calls := analyzed_calls
                   plan_approved := true
                   current_step := "reporting"
                   workflow_status := "running"
                   analysis_summary := some reflection }
    else if reflection.decision = "refine" then
      { state with analyzed_calls := analyzed_calls
                   plan_approved := false
                   plan_feedback :=
                     some ("Results need refinement: " ++
                       strJoin "; " reflection.recommendations)
                   current_step := "planning"
                   workflow_status := "running"
                   analysis_summary := some reflection }
    else
      -- expand or other decisions - continue with what we have
      { state with analyzed_calls := analyzed_calls
                   plan_approved := true
                   current_step := "reporting"
                   workflow_status := "running"
                   analysis_summary := some reflection }

/-- `reporter_node` of `master_agent.py`: the report it assembles is handed
to the out-of-scope Reporter collaborator; only the state effects are
modelled (`end_time` reads the clock and is passed in). -/
def reporter_node (state : WorkflowState) (endTime : String) : WorkflowState :=
  { state with final_report := some ()
               workflow_status := "completed"
               current_step := "__end__"
               end_time := some endTime }

/-- `should_continue_after_safety` of `master_agent.py`. -/
def should_continue_after_safety (state : WorkflowState) : String :=
  if state.safety_check_passed then "planner" else "failed"

/-- `should_continue_after_analysis` of `master_agent.py`. -/
def should_continue_after_analysis (state : WorkflowState) : String :=
  if state.plan_approved then "reporter" else "planner"

/-- The nodes of the LangGraph graph built by `create_workflow`. -/
inductive GraphNode where
  | safety_check
  | planner
  | retrieval
  | analysis
  | reporter
deriving Repr, DecidableEq

/-- A workflow configuration: the node about to execute plus the current
state, or a finished run (`END`). -/
inductive Config where
  | active (n : GraphNode) (s : WorkflowState)
  | halted (s : WorkflowState)
deriving Repr, DecidableEq

/-- The external inputs consumed by one graph step (whichever node runs). -/
structure StepExt where
  safety : SafetyExt := {}
  plan : Except String Plan := .error "unavailable"
  scrape : Except String (List CallData) := .ok []
  analysis : AnalysisExt := {}
  endTime : String := ""

/-- One step of the compiled LangGraph graph (`create_workflow` of
`master_agent.py`): the edges are `safety_check →(cond) planner | END`,
`planner → retrieval → analysis`, `analysis →(cond) planner | reporter`,
`reporter → END`.  The `planner → retrieval` and `retrieval → analysis`
edges are unconditional in the source, so they are followed even when the
node recorded a failure in the state. -/
def stepWorkflow : Config → StepExt → Config
  | .active .safety_check s, e =>
    let s' := safety_check_node s e.safety
    if should_continue_after_safety s' = "planner" then .active .planner s'
    else .halted s'
  | .active .planner s, e => .active .retrieval (planner_node s e.plan)
  | .active .retrieval s, e => .active .analysis (retrieval_node s e.scrape)
  | .active .analysis s, e =>
    let s' := analysis_node s e.analysis
    if should_continue_after_analysis s' = "reporter" then .active .reporter s'
    else .active .planner s'
  | .active .reporter s, e => .halted (reporter_node s e.endTime)
  | .halted s, _ => .halted s

/-- Run the graph over a list of per-step external inputs. -/
def runWorkflow : Config → List StepExt → Config
  | c, [] => c
  | c, e :: rest => runWorkflow (stepWorkflow c e) rest

/-- The state carried by a configuration. -/
def configState : Config → WorkflowState
  | .active _ s => s
  | .halted s => s

def isAtPlanner : Config → Bool
  | .active .planner _ => true
  | _ => false

/-- Number of times the run enters the Planning node while consuming the
given inputs. -/
def plannerEntries : Config → List StepExt → ℕ
  | _, [] => 0
  | c, e :: rest =>
    let c' := stepWorkflow c e
    (if isAtPlanner c' then 1 else 0) + plannerEntries c' rest

/-- The quality penalty as a function of the quality level (the source
inlines these constants in `_apply_quality_penalty`). -/
def qualityPenalty (level : String) : ℚ :=
  if level = "high" then 0 else if level = "medium" then 0.3 else 0.8

/-- The concrete record and profile of the spec's budget scenario:
record budget 100000–500000, SME profile preferring 50000–1000000. -/
def budgetScenarioCall : CallData :=
  { budget_per_project := some { min := some 100000, max := some 500000 } }

def budgetScenarioProfile : CompanyProfile :=
  { orgType := "SME"
    search_params := some { budget_range := some { min := some 50000, max := some 1000000 } } }

/-- A record whose only populated field is a parseable deadline, used to
exhibit the clock dependence of `score_call`. -/
def c5call : CallData :=
  { general_info := { dates := { deadline := some "15 January 2030" } } }

def c5profile : CompanyProfile := {}

/-- A clock 200 days before the record's deadline. -/
def c5now1 : ℤ := dateOrdinal 2030 1 15 - 200

/-- A clock 5 days after the record's deadline. -/
def c5now2 : ℤ := dateOrdinal 2030 1 15 + 5

/-- An empty scraped topic and profile for the Analysis-state instance. -/
def c1topic : CallData := {}

def c1profile : CompanyProfile := {}

def c1ext : AnalysisExt := {}

/-- An Analysis-state snapshot: one scraped topic, iteration 1 of 3. -/
def c1state : WorkflowState :=
  { company_input := some (.dictInput c1profile)
    planner_iterations := 1
    scraped_topics := [c1topic]
    current_step := "analysis" }

/-- A benign dict-shaped profile that passes the safety scan and the basic
field checks. -/
def c2profile : CompanyProfile :=
  { name := some "Acme Robotics"
    description := some "We build autonomous inspection robots."
    orgType := "SME"
    employees := some 25
    country := "Bulgaria"
    domains := [{ name := "Robotics" }] }

def c2input : CompanyInputVal := .dictInput c2profile

def c2init : WorkflowState := create_initial_state c2input "t0"

/-- A step whose Planner call raises and whose Retriever returns nothing. -/
def c2failingStep : StepExt := { plan := .error "connection refused", scrape := .ok [] }

def c2badRun : List StepExt := List.replicate 10 c2failingStep

/-- A state whose iteration counter has reached the bound. -/
def c2boundState : WorkflowState := { planner_iterations := 3 }

/-- Whether a configuration is about to execute the Planning node. -/
def pcBonus (c : Config) : ℕ := if isAtPlanner c then 1 else 0

def atSafety : Config → Bool
  | .active .safety_check _ => true
  | _ => false

/-- Inductive invariant of the iteration bound: the counter (plus one when
Planning is about to run) stays within the bound, and a pending safety check
still has an iteration in hand (the `safety_check → planner` edge is
unconditional). -/
def loopInv (c : Config) : Prop :=
  (configState c).planner_iterations + pcBonus c ≤
      (configState c).max_planner_iterations ∧
    (atSafety c = true →
      (configState c).planner_iterations < (configState c).max_planner_iterations)

/-- A dict-shaped profile that is valid except for a zero employee count. -/
def c10profile : CompanyProfile :=
  { name := some "Acme Robotics"
    description := some "We build autonomous inspection robots."
    orgType := "SME"
    employees := some 0
    country := "Bulgaria"
    domains := [{ name := "Robotics" }] }

def c10input : CompanyInputVal := .dictInput c10profile

def c10state : WorkflowState := create_initial_state c10input "t0"

/-- A pydantic-shaped input whose employee count is below 1 (constructible
only by bypassing the schema, which independently requires `ge=1`). -/
def c10obj : CompanyInputObj :=
  { company :=
      { name := "Acme Robotics"
        description := "We build autonomous inspection robots."
        orgType := "SME"
        employees := 0
        country := "Bulgaria"
        domains := [{ name := "Robotics" }] } }

def c10objState : WorkflowState := create_initial_state (.objInput c10obj) "t0"

/-- A dict-shaped profile whose description is shorter than 20 characters. -/
def c10badProfile : CompanyProfile :=
  { name := some "Ab"
    description := some "too short"
    orgType := "SME"
    employees := some 10
    country := "Bulgaria"
    domains := [{ name := "Robotics" }] }

def c10badState : WorkflowState := create_initial_state (.dictInput c10badProfile) "t0"

/-! ## Theorems settling the specification claims -/

/-- Helper: `round1` maps `[1, 10]` into `[1, 10]`. -/
lemma round1_bounds (x : ℚ) (h1 : 1 ≤ x) (h2 : x ≤ 10) :
    1 ≤ round1 x ∧ round1 x ≤ 10 := by
  unfold round1
  rw [round_eq]
  constructor
  · have h : (10 : ℤ) ≤ ⌊10 * x + 1 / 2⌋ := Int.le_floor.mpr (by push_cast; linarith)
    rw [le_div_iff₀ (by norm_num)]
    have : ((10 : ℤ) : ℚ) ≤ (⌊10 * x + 1 / 2⌋ : ℤ) := by exact_mod_cast h
    push_cast at this ⊢
    linarith
  · have hf : ((⌊10 * x + 1 / 2⌋ : ℤ) : ℚ) ≤ 10 * x + 1 / 2 := Int.floor_le _
    have h101 : ((⌊10 * x + 1 / 2⌋ : ℤ) : ℚ) < 101 := lt_of_le_of_lt hf (by linarith)
    have h100 : (⌊10 * x + 1 / 2⌋ : ℤ) ≤ 100 :=
      Int.lt_add_one_iff.mp (by exact_mod_cast h101)
    rw [div_le_iff₀ (by norm_num)]
    have : ((⌊10 * x + 1 / 2⌋ : ℤ) : ℚ) ≤ 100 := by exact_mod_cast h100
    linarith

/-- C3: for every batch of results and every score distribution, once the
iteration argument has reached the bound (the hard-coded 3, which equals the
workflow's `max_planner_iterations` default), `reflect_on_results` returns
the decision `finalize` — even for an empty batch or all-low scores. -/
theorem C3_theorem (results : List ResultRecord) (search_params : ReflParams)
    (iteration : ℕ) (h : 3 ≤ iteration) :
    (reflect_on_results results search_params iteration).decision = "finalize" := by
  simp only [reflect_on_results, make_decision, ge_iff_le, if_pos h]
  split <;> rfl

/-- Witness for `C3_theorem`: an empty batch at iteration 3 finalizes. -/
theorem C3_witness :
    (reflect_on_results [] {} 3).decision = "finalize" :=
  C3_theorem [] {} 3 (by norm_num)

/-- C4: for every input with an empty batch (`total_found = 0`) and an
iteration below the bound, `reflect_on_results` returns `expand`. -/
theorem C4_theorem (search_params : ReflParams) (iteration : ℕ)
    (h : iteration < 3) :
    (reflect_on_results [] search_params iteration).decision = "expand" := by
  simp only [reflect_on_results, make_decision]
  rw [if_neg (by omega)]
  rfl

/-- Witness for `C4_theorem`: the spec's scenario (zero records,
iteration 1, bound 3) expands. -/
theorem C4_witness :
    (reflect_on_results [] { max_results := 30, portals := [] } 1).decision =
      "expand" :=
  C4_theorem { max_results := 30, portals := [] } 1 (by norm_num)

/-- C6, counterexample: at a final total of 7.8 the code recommends `apply`,
although 7.8 is in `[6.0, 8.0)`, where the claim's thresholds
(apply ≥ 8.0, consider ≥ 6.0) demand `consider`. -/
theorem C6_counterexample :
    (get_recommendation 7.8).action = "apply" ∧
      (6 ≤ (7.8 : ℚ) ∧ ¬ (8 : ℚ) ≤ 7.8) := by
  refine ⟨?_, by norm_num, by norm_num⟩
  norm_num [get_recommendation]

/-- C6, amended: the recommendation thresholds implemented by
`_get_recommendation` are `apply ≥ 7.5`, `consider ≥ 5.5`, `monitor ≥ 3.5`,
`skip` otherwise (not the spec's 8.0/6.0/4.0). -/
theorem C6_theorem (t : ℚ) :
    ((get_recommendation t).action = "apply" ↔ 7.5 ≤ t) ∧
    ((get_recommendation t).action = "consider" ↔ 5.5 ≤ t ∧ t < 7.5) ∧
    ((get_recommendation t).action = "monitor" ↔ 3.5 ≤ t ∧ t < 5.5) ∧
    ((get_recommendation t).action = "skip" ↔ t < 3.5) := by
  unfold get_recommendation
  split_ifs with h1 h2 h3 <;>
    refine ⟨?_, ?_, ?_, ?_⟩ <;> simp_all <;> first | linarith | (intro h; linarith)

/-- Witness for `C6_theorem`: a total of 8 is an `apply`. -/
theorem C6_witness : (get_recommendation 8).action = "apply" :=
  (C6_theorem 8).1.mpr (by norm_num)

/-- C7, counterexample: on the spec's full-containment scenario the
budget-feasibility sub-score is 8.0, not the claimed 9.0. -/
theorem C7_counterexample :
    score_budget_feasibility budgetScenarioCall budgetScenarioProfile = 8 ∧
      (8 : ℚ) ≠ 9 := by
  refine ⟨?_, by norm_num⟩
  norm_num [score_budget_feasibility, budgetScenarioCall, budgetScenarioProfile]

/-- C7, amended: `_score_budget_feasibility` ignores the profile's preferred
budget range entirely — it depends only on the record's budget and the
organisation type (graduated bands over the record's average budget) — and
it never produces 9.0; on the spec's containment scenario it yields 8.0. -/
theorem C7_theorem :
    (∀ c : CallData, ∀ p q : CompanyProfile, p.orgType = q.orgType →
        score_budget_feasibility c p = score_budget_feasibility c q) ∧
      score_budget_feasibility budgetScenarioCall budgetScenarioProfile = 8 ∧
      (∀ (c : CallData) (p : CompanyProfile), score_budget_feasibility c p ≠ 9) := by
  refine ⟨?_, ?_, ?_⟩
  · intro c p q h
    simp only [score_budget_feasibility, h]
  · norm_num [score_budget_feasibility, budgetScenarioCall, budgetScenarioProfile]
  · intro c p
    unfold score_budget_feasibility
    dsimp only
    split_ifs <;> norm_num

/-- Witness for `C7_theorem`: two SME profiles with different preferred
budget ranges get the same budget-feasibility score. -/
theorem C7_witness :
    score_budget_feasibility budgetScenarioCall budgetScenarioProfile =
      score_budget_feasibility budgetScenarioCall { orgType := "SME" } :=
  C7_theorem.1 budgetScenarioCall budgetScenarioProfile { orgType := "SME" } rfl

/-- C8: the data-quality level is `high` iff signal coverage is at least
0.84 and `medium` iff it is in `[0.50, 0.84)`; the penalty implied by
`_apply_quality_penalty` is exactly 0.0 / 0.3 / 0.8 for the three levels,
antitone in coverage, and the adjusted total is always clamped to
`[1.0, 10.0]` — as is `score_call`'s final `total`. -/
theorem C8_theorem :
    (∀ c : CallData,
        ((assess_call_data_quality c).level = "high" ↔
          0.84 ≤ call_signal_coverage c) ∧
        ((assess_call_data_quality c).level = "medium" ↔
          0.5 ≤ call_signal_coverage c ∧ call_signal_coverage c < 0.84) ∧
        ((assess_call_data_quality c).level = "low" ↔
          call_signal_coverage c < 0.5)) ∧
    (∀ (t : ℚ) (q : ScoreQuality),
        apply_quality_penalty t q = max 1 (min 10 (t - qualityPenalty q.level)) ∧
        1 ≤ apply_quality_penalty t q ∧ apply_quality_penalty t q ≤ 10) ∧
    (qualityPenalty "high" = 0 ∧ qualityPenalty "medium" = 0.3 ∧
      qualityPenalty "low" = 0.8) ∧
    (∀ c₁ c₂ : CallData, call_signal_coverage c₁ ≤ call_signal_coverage c₂ →
        qualityPenalty (assess_call_data_quality c₂).level ≤
          qualityPenalty (assess_call_data_quality c₁).level) ∧
    (∀ (c : CallData) (p : CompanyProfile) (i : Option LlmInsights) (n : ℤ),
        1 ≤ (score_call c p i n).total ∧ (score_call c p i n).total ≤ 10) := by
  have hlevel : ∀ c : CallData,
      ((assess_call_data_quality c).level = "high" ↔
        0.84 ≤ call_signal_coverage c) ∧
      ((assess_call_data_quality c).level = "medium" ↔
        0.5 ≤ call_signal_coverage c ∧ call_signal_coverage c < 0.84) ∧
      ((assess_call_data_quality c).level = "low" ↔
        call_signal_coverage c < 0.5) := by
    intro c
    unfold assess_call_data_quality
    dsimp only
    split_ifs with h1 h2 <;> refine ⟨?_, ?_, ?_⟩ <;> simp_all
    all_goals linarith
  have hpen : ∀ (t : ℚ) (q : ScoreQuality),
      apply_quality_penalty t q = max 1 (min 10 (t - qualityPenalty q.level)) := by
    intro t q
    unfold apply_quality_penalty qualityPenalty
    split_ifs <;> simp
  have hbounds : ∀ (t : ℚ) (q : ScoreQuality),
      1 ≤ apply_quality_penalty t q ∧ apply_quality_penalty t q ≤ 10 := by
    intro t q
    rw [hpen]
    exact ⟨le_max_left _ _, max_le (by norm_num) (min_le_left _ _)⟩
  refine ⟨hlevel, fun t q => ⟨hpen t q, hbounds t q⟩, ⟨rfl, rfl, rfl⟩, ?_, ?_⟩
  · have hqp : ∀ c : CallData, qualityPenalty (assess_call_data_quality c).level =
        if 0.84 ≤ call_signal_coverage c then 0
        else if 0.5 ≤ call_signal_coverage c then 0.3 else 0.8 := by
      intro c
      unfold assess_call_data_quality qualityPenalty
      dsimp only
      split_ifs <;> simp_all
    intro c₁ c₂ hc
    rw [hqp c₁, hqp c₂]
    split_ifs <;> linarith
  · intro c p i n
    have key : ∀ (traw : ℚ) (q : ScoreQuality),
        1 ≤ round1 (apply_quality_penalty traw q) ∧
          round1 (apply_quality_penalty traw q) ≤ 10 := fun traw q =>
      round1_bounds _ (hbounds traw q).1 (hbounds traw q).2
    rcases i with _ | ins
    · exact key _ _
    · exact key _ _

/-- Witness for `C8_theorem`: a fully-populated record reaches coverage 1,
quality `high`, and its penalty is 0. -/
theorem C8_witness :
    qualityPenalty "high" = 0 ∧
      1 ≤ apply_quality_penalty 5 { level := "high", score := 100, reasons := [] } ∧
      apply_quality_penalty 5 { level := "high", score := 100, reasons := [] } ≤ 10 :=
  ⟨C8_theorem.2.2.1.1,
   (C8_theorem.2.1 5 { level := "high", score := 100, reasons := [] }).2⟩

/-- C9: `all_passed` is the conjunction of exactly the five binding checks,
and the SME flags — functions of the record's `funding_rate`, which none of
the five checks reads — can never change it: replacing `funding_rate`
arbitrarily leaves `all_passed` unchanged, and any two evaluations agreeing
on the five checks agree on `all_passed`. -/
theorem C9_theorem :
    (∀ (c : CallData) (p : CompanyProfile),
        (apply_eligibility_filters c p).all_passed =
          ((apply_eligibility_filters c p).type_ok &&
            (apply_eligibility_filters c p).country_ok &&
            (apply_eligibility_filters c p).budget_ok &&
            (apply_eligibility_filters c p).trl_ok &&
            (apply_eligibility_filters c p).consortium_ok)) ∧
    (∀ (c : CallData) (p : CompanyProfile) (fr : String),
        (apply_eligibility_filters { c with funding_rate := fr } p).all_passed =
          (apply_eligibility_filters c p).all_passed) ∧
    (∀ (c₁ c₂ : CallData) (p₁ p₂ : CompanyProfile),
        (apply_eligibility_filters c₁ p₁).type_ok =
            (apply_eligibility_filters c₂ p₂).type_ok →
        (apply_eligibility_filters c₁ p₁).country_ok =
            (apply_eligibility_filters c₂ p₂).country_ok →
        (apply_eligibility_filters c₁ p₁).budget_ok =
            (apply_eligibility_filters c₂ p₂).budget_ok →
        (apply_eligibility_filters c₁ p₁).trl_ok =
            (apply_eligibility_filters c₂ p₂).trl_ok →
        (apply_eligibility_filters c₁ p₁).consortium_ok =
            (apply_eligibility_filters c₂ p₂).consortium_ok →
        (apply_eligibility_filters c₁ p₁).all_passed =
          (apply_eligibility_filters c₂ p₂).all_passed) := by
  refine ⟨fun c p => rfl, fun c p fr => rfl, ?_⟩
  intro c₁ c₂ p₁ p₂ h1 h2 h3 h4 h5
  simp only [apply_eligibility_filters] at h1 h2 h3 h4 h5 ⊢
  rw [h1, h2, h3, h4, h5]

/-- Witness for `C9_theorem`: two records differing only in `funding_rate`
(one empty, one demanding SME participation) have identical `all_passed`. -/
theorem C9_witness :
    (apply_eligibility_filters { funding_rate := "sme required" } { orgType := "SME" }).all_passed =
      (apply_eligibility_filters {} { orgType := "SME" }).all_passed :=
  C9_theorem.2.2 { funding_rate := "sme required" } {} { orgType := "SME" }
    { orgType := "SME" } rfl rfl rfl rfl rfl

/-- Helper: `_score_deadline_comfort` only returns the seven band constants,
on which `round1` is the identity. -/
lemma round1_deadline (c : CallData) (t : ℤ) :
    round1 (score_deadline_comfort c t) = score_deadline_comfort c t := by
  unfold score_deadline_comfort
  dsimp only
  split
  · norm_num [round1, round_eq]
  · split
    · norm_num [round1, round_eq]
    · split
      · norm_num [round1, round_eq]
      · split_ifs <;> norm_num [round1, round_eq]

/-- Helper: 200 days before the deadline the comfort band is 9. -/
lemma c5_deadline_eval1 : score_deadline_comfort c5call c5now1 = 9 := by
  have hfind : findDateTokens (pyTokens "15 January 2030") = some (15, 1, 2030) := by
    decide
  unfold score_deadline_comfort c5call
  dsimp only [Option.getD]
  rw [if_neg (by decide), hfind]
  dsimp only
  rw [if_neg (by decide)]
  have h200 : dateOrdinal 2030 1 15 - c5now1 = 200 := by unfold c5now1; ring
  rw [h200]
  norm_num

/-- Helper: 5 days after the deadline the comfort band is 1. -/
lemma c5_deadline_eval2 : score_deadline_comfort c5call c5now2 = 1 := by
  have hfind : findDateTokens (pyTokens "15 January 2030") = some (15, 1, 2030) := by
    decide
  unfold score_deadline_comfort c5call
  dsimp only [Option.getD]
  rw [if_neg (by decide), hfind]
  dsimp only
  rw [if_neg (by decide)]
  have h5 : dateOrdinal 2030 1 15 - c5now2 = -5 := by unfold c5now2; ring
  rw [h5]
  norm_num

/-- C5, counterexample: the same record, profile and (absent) insights
scored at two different times give different outputs — `score_call` reads
the clock through `_score_deadline_comfort`, so it is not deterministic
across invocation times as the claim states. -/
theorem C5_counterexample :
    score_call c5call c5profile none c5now1 ≠ score_call c5call c5profile none c5now2 := by
  intro h
  have hd := congrArg ScoreResult.deadline_comfort h
  have e1 : (score_call c5call c5profile none c5now1).deadline_comfort =
      round1 (score_deadline_comfort c5call c5now1) := rfl
  have e2 : (score_call c5call c5profile none c5now2).deadline_comfort =
      round1 (score_deadline_comfort c5call c5now2) := rfl
  rw [e1, e2, round1_deadline, round1_deadline, c5_deadline_eval1,
    c5_deadline_eval2] at hd
  norm_num at hd

/-- C5, amended: `apply_eligibility_filters` is a pure function of record
and profile (it takes no clock at all), and `score_call` is deterministic
once the current day is fixed; across different invocation times every
component except the deadline-derived ones is unchanged, and two
invocations whose deadline-comfort bands agree produce identical outputs. -/
theorem C5_theorem (c : CallData) (p : CompanyProfile)
    (i : Option LlmInsights) (t₁ t₂ : ℤ) :
    (score_call c p i t₁).domain_match = (score_call c p i t₂).domain_match ∧
    (score_call c p i t₁).keyword_match = (score_call c p i t₂).keyword_match ∧
    (score_call c p i t₁).eligibility_fit = (score_call c p i t₂).eligibility_fit ∧
    (score_call c p i t₁).budget_feasibility =
      (score_call c p i t₂).budget_feasibility ∧
    (score_call c p i t₁).strategic_value = (score_call c p i t₂).strategic_value ∧
    (score_call c p i t₁).scoring_method = (score_call c p i t₂).scoring_method ∧
    (score_call c p i t₁).data_quality.level =
      (score_call c p i t₂).data_quality.level ∧
    (score_call c p i t₁).data_quality.score =
      (score_call c p i t₂).data_quality.score ∧
    (score_call c p i t₁).data_quality.reasons =
      (score_call c p i t₂).data_quality.reasons ∧
    ((score_call c p i t₁).deadline_comfort = (score_call c p i t₂).deadline_comfort →
      score_call c p i t₁ = score_call c p i t₂) := by
  have hdm : ∀ t : ℤ, (score_call c p i t).domain_match =
      round1 (chooseScores c p i).1 := fun _ => rfl
  have hkm : ∀ t : ℤ, (score_call c p i t).keyword_match =
      round1 (chooseScores c p i).2.1 := fun _ => rfl
  have hef : ∀ t : ℤ, (score_call c p i t).eligibility_fit =
      round1 (score_eligibility c p) := fun _ => rfl
  have hbf : ∀ t : ℤ, (score_call c p i t).budget_feasibility =
      round1 (score_budget_feasibility c p) := fun _ => rfl
  have hsv : ∀ t : ℤ, (score_call c p i t).strategic_value =
      round1 (chooseScores c p i).2.2.1 := fun _ => rfl
  have hsm : ∀ t : ℤ, (score_call c p i t).scoring_method =
      (chooseScores c p i).2.2.2 := fun _ => rfl
  have hql : ∀ t : ℤ, (score_call c p i t).data_quality.level =
      (assess_call_data_quality c).level := fun _ => rfl
  have hqs : ∀ t : ℤ, (score_call c p i t).data_quality.score =
      (assess_call_data_quality c).score := fun _ => rfl
  have hqr : ∀ t : ℤ, (score_call c p i t).data_quality.reasons =
      (assess_call_data_quality c).reasons := fun _ => rfl
  refine ⟨(hdm t₁).trans (hdm t₂).symm, (hkm t₁).trans (hkm t₂).symm,
    (hef t₁).trans (hef t₂).symm, (hbf t₁).trans (hbf t₂).symm,
    (hsv t₁).trans (hsv t₂).symm, (hsm t₁).trans (hsm t₂).symm,
    (hql t₁).trans (hql t₂).symm, (hqs t₁).trans (hqs t₂).symm,
    (hqr t₁).trans (hqr t₂).symm, ?_⟩
  intro hdc
  have e1 : (score_call c p i t₁).deadline_comfort =
      round1 (score_deadline_comfort c t₁) := rfl
  have e2 : (score_call c p i t₂).deadline_comfort =
      round1 (score_deadline_comfort c t₂) := rfl
  have h1 : round1 (score_deadline_comfort c t₁) =
      round1 (score_deadline_comfort c t₂) := (e1.symm.trans hdc).trans e2
  have hd : score_deadline_comfort c t₁ = score_deadline_comfort c t₂ :=
    (round1_deadline c t₁).symm.trans (h1.trans (round1_deadline c t₂))
  exact congrArg (score_call_with c p i) hd

/-- Witness for `C5_theorem`: at equal clocks the outputs coincide. -/
theorem C5_witness :
    score_call c5call c5profile none c5now1 = score_call c5call c5profile none c5now1 :=
  (C5_theorem c5call c5profile none c5now1 c5now1).2.2.2.2.2.2.2.2.2 rfl

/-- C10, counterexample: a dict-shaped profile with a valid name,
description and domain list but zero employees passes Intake and is routed
to Planning — the dict path of `safety_check_node` never checks the
employee count. -/
theorem C10_counterexample :
    c10profile.employees = some 0 ∧
    (safety_check_node c10state {}).safety_check_passed = true ∧
    (safety_check_node c10state {}).current_step = "planning" ∧
    should_continue_after_safety (safety_check_node c10state {}) = "planner" := by
  refine ⟨rfl, ?_, ?_, ?_⟩ <;> decide

/-- C10, amended: on the dict-input path Intake rejects before Planning
exactly for a missing name, a description shorter than 20 characters or an
empty domain list (the employee count is not consulted there); the
`employees < 1` check lives in `InputValidator._basic_validation`, which
rejects object-shaped inputs before Planning regardless of the LLM step or
the safety guard's verdict. -/
theorem C10_theorem :
    (∀ (s : WorkflowState) (x : SafetyExt) (c : CompanyProfile),
        s.company_input = some (.dictInput c) →
        ¬(c.name.getD "" ≠ "" ∧ (c.description.getD "").data.length ≥ 20 ∧
            c.domains.length > 0) →
        (safety_check_node s x).safety_check_passed = false ∧
        (safety_check_node s x).workflow_status = "failed" ∧
        (safety_check_node s x).current_step = "failed" ∧
        should_continue_after_safety (safety_check_node s x) = "failed") ∧
    (∀ input_data : CompanyInputObj, input_data.company.employees < 1 →
        (basic_validation input_data).is_valid = false ∧
        "company.employees" ∈ (basic_validation input_data).missing_fields ∧
        ∀ (hasKey : Bool) (llm : Except String ValidationResult),
          (validate input_data hasKey llm).is_valid = false) ∧
    (∀ (s : WorkflowState) (x : SafetyExt) (o : CompanyInputObj),
        s.company_input = some (.objInput o) →
        o.company.employees < 1 →
        (safety_check_node s x).safety_check_passed = false ∧
        should_continue_after_safety (safety_check_node s x) = "failed") := by
  have part2 : ∀ input_data : CompanyInputObj, input_data.company.employees < 1 →
      (basic_validation input_data).is_valid = false ∧
      "company.employees" ∈ (basic_validation input_data).missing_fields ∧
      ∀ (hasKey : Bool) (llm : Except String ValidationResult),
        (validate input_data hasKey llm).is_valid = false := by
    intro input hemp
    have hb : (basic_validation input).is_valid = false ∧
        "company.employees" ∈ (basic_validation input).missing_fields := by
      unfold basic_validation
      dsimp only
      rw [if_pos hemp]
      have hne : ((if input.company.name = "" ∨
            (pyStrip input.company.name).data.length < 2 then
              ["company.name"] else []) ++
          (if input.company.description = "" ∨
            (pyStrip input.company.description).data.length < 20 then
              ["company.description (minimum 20 characters)"] else []) ++
          (if input.company.orgType = "" then ["company.type"] else []) ++
          ["company.employees"] ++
          (if input.company.country = "" then ["company.country"] else []) ++
          (if input.company.domains = [] then
            ["company.domains (at least one domain required)"]
          else (input.company.domains.enum.filter fun p =>
              p.2.name = "" ∨ (pyStrip p.2.name).data.length < 1).map fun p =>
                "company.domains[" ++ toString p.1 ++ "].name")) ≠ [] := by
        simp
      rw [if_pos hne]
      refine ⟨rfl, ?_⟩
      simp
    refine ⟨hb.1, hb.2, ?_⟩
    intro hasKey llm
    unfold validate
    rw [if_pos (by rw [hb.1]; simp)]
    exact hb.1
  refine ⟨?_, part2, ?_⟩
  · intro s x c hin hbad
    unfold safety_check_node
    rw [hin]
    dsimp only
    split_ifs with ht hv
    · exact ⟨rfl, rfl, rfl, rfl⟩
    · exact absurd (of_decide_eq_true hv) hbad
    · exact ⟨rfl, rfl, rfl, rfl⟩
  · intro s x o hin hemp
    unfold safety_check_node
    rw [hin]
    dsimp only
    split_ifs with hg hv
    · exact absurd hv
        (by rw [(part2 o hemp).2.2 x.hasApiKey x.llmValidation]; simp)
    · exact ⟨rfl, rfl⟩
    · exact ⟨rfl, rfl⟩


/-- Witness for `C10_theorem`: a dict profile with a 9-character description
is rejected, and the object-shaped input with zero employees fails
validation. -/
theorem C10_witness :
    (safety_check_node c10badState {}).current_step = "failed" ∧
    (validate c10obj false (Except.error "no llm")).is_valid = false :=
  ⟨(C10_theorem.1 c10badState {} c10badProfile rfl (by decide)).2.2.1,
   (C10_theorem.2.1 c10obj (by decide)).2.2 false (Except.error "no llm")⟩

/-- Helper: the reflection decision for the Analysis-state instance
`c1state` (one analyzed topic at iteration 1): the portal-coverage rule
fires — analyzed calls carry no portal information, so coverage is 0 — and
the decision is `expand`. -/
lemma c1_refl_decision :
    (reflect_on_results
        ((([c1topic].enum.map fun p => analyze_one p.2 c1profile (c1ext.perTopic p.1))).map
          analyzedToResult)
        { max_results := 30, portals := ["ftop", "eufunds_bg"] } 1).decision =
      "expand" := by
  unfold reflect_on_results make_decision analyzedToResult
  dsimp only
  norm_num [dedupKeepFirst, List.enum]
  rw [if_pos ?_]
  rw [if_neg (by simp)]
  norm_num

/-- Helper: the same decision in the list-normal form `simp` produces. -/
lemma c1_refl_decision2 :
    (reflect_on_results [analyzedToResult (analyze_one c1topic c1profile (c1ext.perTopic 0))]
        { max_results := 30, portals := ["ftop", "eufunds_bg"] } 1).decision =
      "expand" := by
  have h := c1_refl_decision
  simpa using h

/-- Helper: on `c1state` the Analysis node computes the decision `expand`. -/
lemma c1_node_decision :
    (analysis_node c1state c1ext).analysis_summary.map ReflectionOutput.decision =
      some "expand" := by
  have hd := c1_refl_decision
  unfold analysis_node c1state
  dsimp only
  rw [if_neg (by decide)]
  rw [hd]
  rw [if_neg (by decide), if_neg (by decide)]
  simp [c1_refl_decision2]

/-- C1, counterexample: in the Analysis state with one scraped topic at
iteration 1 of 3, the Reflection decision is `expand` and iterations
remain, yet the node transitions to Reporting with `plan_approved = true`
and leaves the feedback untouched — not back to Planning as the claim
states. -/
theorem C1_counterexample :
    c1state.planner_iterations < c1state.max_planner_iterations ∧
    (analysis_node c1state c1ext).analysis_summary.map ReflectionOutput.decision =
      some "expand" ∧
    (analysis_node c1state c1ext).current_step = "reporting" ∧
    (analysis_node c1state c1ext).plan_approved = true ∧
    (analysis_node c1state c1ext).plan_feedback = c1state.plan_feedback := by
  refine ⟨by decide, c1_node_decision, ?_, ?_, ?_⟩ <;>
    (have hd := c1_refl_decision
     unfold analysis_node c1state
     dsimp only
     rw [if_neg (by decide)]
     rw [hd]
     rw [if_neg (by decide), if_neg (by decide)])

/-- C1, amended: in the Analysis state with a non-empty batch and
iterations remaining, only the decision `refine` loops back to Planning —
storing `"Results need refinement: "` plus the decision's recommendations
(joined by `"; "`) as feedback; the decision `expand` proceeds to
Reporting with the feedback unchanged.  (The decision's `reasoning` is
never stored.) -/
theorem C1_theorem (s : WorkflowState) (ext : AnalysisExt)
    (hne : s.scraped_topics ≠ [])
    (hit : s.planner_iterations < s.max_planner_iterations) :
    (((analysis_node s ext).analysis_summary.map ReflectionOutput.decision =
        some "refine") →
      (analysis_node s ext).current_step = "planning" ∧
      (analysis_node s ext).plan_approved = false ∧
      ∃ r, (analysis_node s ext).analysis_summary = some r ∧
        (analysis_node s ext).plan_feedback =
          some ("Results need refinement: " ++ strJoin "; " r.recommendations)) ∧
    (((analysis_node s ext).analysis_summary.map ReflectionOutput.decision =
        some "expand") →
      (analysis_node s ext).current_step = "reporting" ∧
      (analysis_node s ext).plan_approved = true ∧
      (analysis_node s ext).plan_feedback = s.plan_feedback) := by
  unfold analysis_node
  dsimp only
  rw [if_neg (by simpa [List.length_eq_zero] using hne)]
  split_ifs with h1 h2
  · constructor
    · intro hp
      simp only [Option.map_some', Option.some.injEq] at hp
      rcases h1 with hl | hl
      · rw [hp] at hl
        exact absurd hl (by decide)
      · omega
    · intro hp
      exact ⟨rfl, rfl, rfl⟩
  · constructor
    · intro hp
      exact ⟨rfl, rfl, _, rfl, rfl⟩
    · intro hp
      simp only [Option.map_some', Option.some.injEq] at hp
      rw [hp] at h2
      exact absurd h2 (by decide)
  · constructor
    · intro hp
      simp only [Option.map_some', Option.some.injEq] at hp
      exact absurd hp h2
    · intro hp
      exact ⟨rfl, rfl, rfl⟩

/-- Witness for `C1_theorem`: applied to the concrete Analysis-state
instance whose decision is `expand`. -/
theorem C1_witness :
    (analysis_node c1state c1ext).current_step = "reporting" ∧
    (analysis_node c1state c1ext).plan_approved = true ∧
    (analysis_node c1state c1ext).plan_feedback = c1state.plan_feedback :=
  (C1_theorem c1state c1ext (by decide) (by decide)).2 c1_node_decision


lemma safety_check_node_iter (s : WorkflowState) (x : SafetyExt) :
    (safety_check_node s x).planner_iterations = s.planner_iterations ∧
    (safety_check_node s x).max_planner_iterations = s.max_planner_iterations := by
  unfold safety_check_node
  cases s.company_input with
  | none => exact ⟨rfl, rfl⟩
  | some v =>
    cases v with
    | dictInput c =>
      dsimp only
      split_ifs <;> exact ⟨rfl, rfl⟩
    | objInput o =>
      dsimp only
      split_ifs <;> exact ⟨rfl, rfl⟩

lemma retrieval_node_iter (s : WorkflowState) (o : Except String (List CallData)) :
    (retrieval_node s o).planner_iterations = s.planner_iterations ∧
    (retrieval_node s o).max_planner_iterations = s.max_planner_iterations := by
  cases o <;> exact ⟨rfl, rfl⟩

lemma analysis_node_iter (s : WorkflowState) (ext : AnalysisExt) :
    (analysis_node s ext).planner_iterations = s.planner_iterations ∧
    (analysis_node s ext).max_planner_iterations = s.max_planner_iterations := by
  unfold analysis_node
  dsimp only
  split_ifs <;> exact ⟨rfl, rfl⟩

lemma analysis_node_loopback (s : WorkflowState) (ext : AnalysisExt)
    (h : (analysis_node s ext).plan_approved = false) :
    s.planner_iterations < s.max_planner_iterations := by
  unfold analysis_node at h
  dsimp only at h
  split_ifs at h with h1 h2 h3 h4 <;>
    first
      | exact h2
      | exact lt_of_not_le fun hge => h3 (Or.inr hge)

lemma planner_node_iter_ok (s : WorkflowState) (p : Plan) :
    (planner_node s (Except.ok p)).planner_iterations = s.planner_iterations + 1 ∧
    (planner_node s (Except.ok p)).max_planner_iterations = s.max_planner_iterations :=
  ⟨rfl, rfl⟩

lemma planner_node_iter_err (s : WorkflowState) (e : String) :
    (planner_node s (Except.error e)).planner_iterations = s.planner_iterations ∧
    (planner_node s (Except.error e)).max_planner_iterations = s.max_planner_iterations :=
  ⟨rfl, rfl⟩

lemma reporter_node_iter (s : WorkflowState) (t : String) :
    (reporter_node s t).planner_iterations = s.planner_iterations ∧
    (reporter_node s t).max_planner_iterations = s.max_planner_iterations :=
  ⟨rfl, rfl⟩

lemma step_max_eq (c : Config) (e : StepExt) :
    (configState (stepWorkflow c e)).max_planner_iterations =
      (configState c).max_planner_iterations := by
  rcases c with ⟨n, s⟩ | s
  · cases n with
    | safety_check =>
      unfold stepWorkflow
      dsimp only
      split_ifs <;> exact (safety_check_node_iter s e.safety).2
    | planner =>
      show (planner_node s e.plan).max_planner_iterations = s.max_planner_iterations
      cases e.plan <;> rfl
    | retrieval =>
      show (retrieval_node s e.scrape).max_planner_iterations = s.max_planner_iterations
      exact (retrieval_node_iter s e.scrape).2
    | analysis =>
      unfold stepWorkflow
      dsimp only
      split_ifs <;> exact (analysis_node_iter s e.analysis).2
    | reporter =>
      exact (reporter_node_iter s e.endTime).2
  · rfl

lemma step_iter_mono (c : Config) (e : StepExt) :
    (configState c).planner_iterations ≤
      (configState (stepWorkflow c e)).planner_iterations := by
  rcases c with ⟨n, s⟩ | s
  · cases n with
    | safety_check =>
      unfold stepWorkflow
      dsimp only
      split_ifs <;> exact le_of_eq (safety_check_node_iter s e.safety).1.symm
    | planner =>
      show s.planner_iterations ≤ (planner_node s e.plan).planner_iterations
      cases e.plan with
      | ok p => rw [(planner_node_iter_ok s p).1]; omega
      | error msg => exact le_of_eq (planner_node_iter_err s msg).1.symm
    | retrieval =>
      exact le_of_eq (retrieval_node_iter s e.scrape).1.symm
    | analysis =>
      unfold stepWorkflow
      dsimp only
      split_ifs <;> exact le_of_eq (analysis_node_iter s e.analysis).1.symm
    | reporter =>
      exact le_of_eq (reporter_node_iter s e.endTime).1.symm
  · exact le_refl _

lemma step_iter_ge (c : Config) (e : StepExt) (hp : ∃ p, e.plan = Except.ok p) :
    (configState c).planner_iterations + pcBonus c ≤
      (configState (stepWorkflow c e)).planner_iterations := by
  obtain ⟨p, hpl⟩ := hp
  rcases c with ⟨n, s⟩ | s
  · cases n with
    | safety_check =>
      unfold stepWorkflow
      dsimp only
      split_ifs <;>
        simp [configState, pcBonus, isAtPlanner, (safety_check_node_iter s e.safety).1]
    | planner =>
      show s.planner_iterations + pcBonus (Config.active GraphNode.planner s) ≤
        (planner_node s e.plan).planner_iterations
      rw [hpl, (planner_node_iter_ok s p).1]
      simp [pcBonus, isAtPlanner]
    | retrieval =>
      simp [stepWorkflow, configState, pcBonus, isAtPlanner,
        (retrieval_node_iter s e.scrape).1]
    | analysis =>
      unfold stepWorkflow
      dsimp only
      split_ifs <;>
        simp [configState, pcBonus, isAtPlanner, (analysis_node_iter s e.analysis).1]
    | reporter =>
      simp [stepWorkflow, configState, pcBonus, isAtPlanner,
        (reporter_node_iter s e.endTime).1]
  · simp [stepWorkflow, configState, pcBonus, isAtPlanner]

lemma loopInv_step (c : Config) (e : StepExt) (hp : ∃ p, e.plan = Except.ok p)
    (h : loopInv c) : loopInv (stepWorkflow c e) := by
  obtain ⟨p, hpl⟩ := hp
  obtain ⟨h1, h2⟩ := h
  rcases c with ⟨n, s⟩ | s
  · cases n with
    | safety_check =>
      have hf := safety_check_node_iter s e.safety
      have hs : s.planner_iterations < s.max_planner_iterations := by
        simpa [configState] using h2 rfl
      unfold stepWorkflow
      dsimp only
      split_ifs with hc
      · refine ⟨?_, fun habs => by simp [atSafety] at habs⟩
        simp [configState, pcBonus, isAtPlanner, hf.1, hf.2]
        omega
      · refine ⟨?_, fun habs => by simp [atSafety] at habs⟩
        simp [configState, pcBonus, isAtPlanner, hf.1, hf.2]
        omega
    | planner =>
      refine ⟨?_, fun habs => by simp [stepWorkflow, atSafety] at habs⟩
      simp only [configState, pcBonus, isAtPlanner] at h1
      show (planner_node s e.plan).planner_iterations +
        pcBonus (Config.active GraphNode.retrieval (planner_node s e.plan)) ≤
        (planner_node s e.plan).max_planner_iterations
      rw [hpl, (planner_node_iter_ok s p).1, (planner_node_iter_ok s p).2]
      simp only [pcBonus, isAtPlanner] at h1 ⊢
      simp at h1 ⊢
      omega
    | retrieval =>
      refine ⟨?_, fun habs => by simp [stepWorkflow, atSafety] at habs⟩
      simp only [configState, pcBonus, isAtPlanner] at h1
      simp [stepWorkflow, configState, pcBonus, isAtPlanner,
        (retrieval_node_iter s e.scrape).1, (retrieval_node_iter s e.scrape).2]
      omega
    | analysis =>
      have hf := analysis_node_iter s e.analysis
      simp only [configState, pcBonus, isAtPlanner] at h1
      unfold stepWorkflow
      dsimp only
      split_ifs with hc
      · refine ⟨?_, fun habs => by simp [atSafety] at habs⟩
        simp [configState, pcBonus, isAtPlanner, hf.1, hf.2]
        omega
      · have hap : (analysis_node s e.analysis).plan_approved = false := by
          by_contra hb
          apply hc
          simp at hb
          unfold should_continue_after_analysis
          rw [if_pos hb]
        have hlt := analysis_node_loopback s e.analysis hap
        refine ⟨?_, fun habs => by simp [atSafety] at habs⟩
        simp [configState, pcBonus, isAtPlanner, hf.1, hf.2]
        omega
    | reporter =>
      refine ⟨?_, fun habs => by simp [stepWorkflow, atSafety] at habs⟩
      simp only [configState, pcBonus, isAtPlanner] at h1
      simp [stepWorkflow, configState, pcBonus, isAtPlanner,
        (reporter_node_iter s e.endTime).1, (reporter_node_iter s e.endTime).2]
      omega
  · refine ⟨?_, fun habs => by simp [stepWorkflow, atSafety] at habs⟩
    simpa [stepWorkflow, configState, pcBonus, isAtPlanner] using h1

lemma plannerEntries_cons (c : Config) (e : StepExt) (rest : List StepExt) :
    plannerEntries c (e :: rest) =
      pcBonus (stepWorkflow c e) + plannerEntries (stepWorkflow c e) rest := rfl

lemma entries_le (L : List StepExt) : ∀ c : Config,
    (∀ e ∈ L, ∃ p, e.plan = Except.ok p) → loopInv c →
    plannerEntries c L + (configState c).planner_iterations + pcBonus c ≤
      (configState c).max_planner_iterations := by
  induction L with
  | nil =>
    intro c hg h
    have := h.1
    simp only [plannerEntries]
    omega
  | cons e rest ih =>
    intro c hg h
    have hge : ∃ p, e.plan = Except.ok p := hg e (by simp)
    have hrest : ∀ e' ∈ rest, ∃ p, e'.plan = Except.ok p := fun e' he' =>
      hg e' (by simp [he'])
    have IH := ih (stepWorkflow c e) hrest (loopInv_step c e hge h)
    have hig := step_iter_ge c e hge
    have hmax := step_max_eq c e
    rw [plannerEntries_cons]
    omega

/-- C2: the planner-loop bound. (1) Every workflow step leaves the iteration
counter unchanged or increments it (monotone, never reset). (2) When
analysis_node runs with the counter at or beyond max_planner_iterations it
unconditionally routes to Reporting with plan_approved=true, so the router
sends the flow to the reporter. (3) In any run from the initial state in which
every Planner invocation succeeds, the Planning node is entered at most
max_planner_iterations times. The success hypothesis is essential: see the
counterexample. -/
theorem C2_theorem :
    (∀ (c : Config) (e : StepExt),
        (configState c).planner_iterations ≤
          (configState (stepWorkflow c e)).planner_iterations) ∧
    (∀ (s : WorkflowState) (ext : AnalysisExt),
        s.max_planner_iterations ≤ s.planner_iterations →
        (analysis_node s ext).current_step = "reporting" ∧
        (analysis_node s ext).plan_approved = true ∧
        should_continue_after_analysis (analysis_node s ext) = "reporter") ∧
    (∀ (input : CompanyInputVal) (t : String) (L : List StepExt),
        (∀ e ∈ L, ∃ p, e.plan = Except.ok p) →
        plannerEntries
            (Config.active GraphNode.safety_check (create_initial_state input t)) L ≤
          (create_initial_state input t).max_planner_iterations) := by
  refine ⟨step_iter_mono, ?_, ?_⟩
  · intro s ext hge
    unfold analysis_node
    dsimp only
    split_ifs with h1 h2 h3 <;>
      first
        | omega
        | exact ⟨rfl, rfl, rfl⟩
  · intro input t L hg
    have h0 : loopInv
        (Config.active GraphNode.safety_check (create_initial_state input t)) := by
      constructor
      · simp [configState, pcBonus, isAtPlanner, create_initial_state]
      · intro _
        simp [configState, create_initial_state]
    have hb := entries_le L _ hg h0
    simp only [configState, pcBonus, isAtPlanner] at hb
    simp at hb
    omega

/-- C2 counterexample: with a Planner that keeps raising (the exception
handler leaves planner_iterations unchanged and the planner->retrieval edge is
unconditional), a 10-step run from the initial state enters the Planning node
4 times - exceeding max_planner_iterations = 3 - while the counter stays 0, so
the spec's unconditional "at most max" bound is false for the code. -/
theorem C2_counterexample :
    c2init.max_planner_iterations = 3 ∧
    plannerEntries (Config.active GraphNode.safety_check c2init) c2badRun = 4 ∧
    (configState
        (runWorkflow (Config.active GraphNode.safety_check c2init) c2badRun)).planner_iterations = 0 ∧
    c2failingStep.plan = Except.error "connection refused" ∧
    c2badRun = List.replicate 10 c2failingStep := by
  refine ⟨rfl, by decide, by decide, rfl, rfl⟩

/-- C2 witness: the bound theorem instantiated at the empty run from a
concrete initial state, and the at-bound analysis clause at a concrete state
whose counter has reached the bound. -/
theorem C2_witness :
    plannerEntries
        (Config.active GraphNode.safety_check (create_initial_state c2input "t0")) [] ≤
      (create_initial_state c2input "t0").max_planner_iterations ∧
    (analysis_node c2boundState {}).current_step = "reporting" :=
  ⟨C2_theorem.2.2 c2input "t0" [] (by simp),
   (C2_theorem.2.1 c2boundState {} (by decide)).1⟩

end EUCF
